import Mathlib

/-!
# FFmpegInterop: the media stream source (FFmpegInteropMSS.cpp)

A shallow embedding of `FFmpegInteropMSS`: object construction from a URI or a
stream, option parsing, stream discovery and descriptor creation
(`InitFFmpegContext`, `CreateAudioStreamDescriptor`,
`CreateVideoStreamDescriptor`) and the `Starting` event handler (`OnStarting`).

Conventions of the embedding.

* The object is a record of its members; every method takes the record and
  returns the record after the call (plus the `HRESULT` where the method has one).
* A handle or pointer that may be null is an `Option` (or a `Bool` saying
  "non-null" where the code only ever tests it); the options dictionary is a list
  of entries and the empty list is the null dictionary.
* Everything the code asks of FFmpeg, of the Windows runtime or of the sample
  provider classes is read from one record `External`: the return values of the
  library calls and the contents of the opened container.  All theorems quantify
  over that record.
* `OnStarting` returns nothing; its embedding returns the sequence of calls it
  makes on its collaborators.
* The two conversions that go through `double` (duration to `TimeSpan`, start
  position to stream time base) are fields of `External`.
-/

namespace FFmpegInterop

/-! ## Result codes and library constants -/

/-- A Windows result code, a signed 32-bit value. -/
abbrev HRESULT := Int

/-- Success code of winerror.h. -/
def S_OK : HRESULT := 0

/-- Unspecified failure, 0x80004005 as a signed value. -/
def E_FAIL : HRESULT := -2147467259

/-- Invalid argument, 0x80070057 as a signed value. -/
def E_INVALIDARG : HRESULT := -2147024809

/-- Out of memory, 0x8007000E as a signed value. -/
def E_OUTOFMEMORY : HRESULT := -2147024882

/-- The winerror.h test `SUCCEEDED(hr)`, which is `hr >= 0`. -/
def SUCCEEDED (hr : HRESULT) : Bool := decide (0 ≤ hr)

/-- The winerror.h test `FAILED(hr)`, which is `hr < 0`. -/
def FAILED (hr : HRESULT) : Bool := decide (hr < 0)

/-- The libavutil error code `FFERRTAG(0xF8,'S','T','R')`. -/
def AVERROR_STREAM_NOT_FOUND : Int := -1381258232

/-- The libavformat disposition flag 0x0400. -/
def AV_DISPOSITION_ATTACHED_PIC : Int := 1024

/-! ## Data of the external libraries -/

/-- Codec identifiers the source distinguishes; every other identifier is `other`. -/
inductive AVCodecID where
  | AV_CODEC_ID_AAC
  | AV_CODEC_ID_MP3
  | AV_CODEC_ID_WMAV1
  | AV_CODEC_ID_WMAV2
  | AV_CODEC_ID_WMAPRO
  | AV_CODEC_ID_H264
  | other (id : Nat)
  deriving DecidableEq, Repr

/-- The two media types passed to `av_find_best_stream`. -/
inductive AVMediaType where
  | AVMEDIA_TYPE_AUDIO
  | AVMEDIA_TYPE_VIDEO
  deriving DecidableEq, Repr

/-- A rational of FFmpeg: two `int` fields. -/
structure AVRational where
  num : Int
  den : Int
  deriving DecidableEq, Repr

/-- The fields of a codec context the source reads.  The pointer `extradata` is
`none` when null, otherwise the bytes it points to; `extradata_size` is a field
of its own. -/
structure AVCodecContext where
  codec_id : AVCodecID
  extradata : Option (List Nat)
  extradata_size : Int
  sample_rate : Int
  channels : Int
  bit_rate : Int
  bits_per_coded_sample : Int
  profile : Int
  width : Int
  height : Int
  sample_aspect_ratio : AVRational
  framerate : AVRational
  deriving DecidableEq, Repr

/-- A decoder as returned through the `decoder_ret` argument of `av_find_best_stream`. -/
structure AVCodec where
  id : AVCodecID
  deriving DecidableEq, Repr

/-- The fields of a container stream the source reads. -/
structure AVStream where
  codec : AVCodecContext
  disposition : Int
  avg_frame_rate : AVRational
  deriving DecidableEq, Repr

/-- An options dictionary.  The null dictionary is the empty list. -/
abbrev AVDictionary := List (String × String)

/-- The host's option set, as the (key, value) strings in iteration order; the
values are the results of `ToString()`. -/
abbrev PropertySet := List (String × String)

/-- The stream handed to the stream overload. -/
structure IRandomAccessStream where
  id : Nat
  deriving DecidableEq, Repr

/-! ## Objects the source creates -/

/-- The sample provider classes the source instantiates. -/
inductive SampleProvider where
  | MediaSampleProvider
  | UncompressedAudioSampleProvider
  | H264AVCSampleProvider
  | H264SampleProvider
  | UncompressedVideoSampleProvider
  deriving DecidableEq, Repr

/-- Audio encoding properties, by the factory call that made them and its arguments. -/
inductive AudioEncodingProperties where
  | CreateAacAdts (sampleRate channelCount bitrate : Int)
  | CreateAac (sampleRate channelCount bitrate : Int)
  | CreateMp3 (sampleRate channelCount bitrate : Int)
  | CreateWma (sampleRate channelCount bitrate : Int)
  | CreatePcm (sampleRate channelCount : Int) (bitsPerSample : Nat)
  deriving DecidableEq, Repr

/-- The descriptor built from audio properties. -/
structure AudioStreamDescriptor where
  EncodingProperties : AudioEncodingProperties
  deriving DecidableEq, Repr

/-- The two factory calls for video properties. -/
inductive VideoSubtype where
  | H264
  | Nv12
  deriving DecidableEq, Repr

/-- A ratio property of the host: the numerator and denominator written to it. -/
structure MediaRatio where
  Numerator : Int
  Denominator : Int
  deriving DecidableEq, Repr

/-- Video encoding properties.  A field is `none` as long as the source has not
assigned it (it then keeps whatever the factory call put there). -/
structure VideoEncodingProperties where
  Subtype : VideoSubtype
  ProfileId : Option Int
  Width : Option Int
  Height : Option Int
  PixelAspectRatio : Option MediaRatio
  FrameRate : Option MediaRatio
  Bitrate : Option Int
  deriving DecidableEq, Repr

/-- The descriptor built from video properties. -/
structure VideoStreamDescriptor where
  EncodingProperties : VideoEncodingProperties
  deriving DecidableEq, Repr

/-- The media stream source handed to the host.  `Duration`, `CanSeek` and
`BufferTime` are `none` as long as the source has not assigned them; `Starting`
and `SampleRequested` say whether this object's handler is registered. -/
structure MediaStreamSource where
  videoStreamDescriptor : Option VideoStreamDescriptor
  audioStreamDescriptor : Option AudioStreamDescriptor
  Duration : Option Int
  CanSeek : Option Bool
  BufferTime : Option Int
  Starting : Bool
  SampleRequested : Bool
  deriving DecidableEq, Repr

/-- Modelled from the spec: the class FFmpegReader is not among the sources; the
spec describes its stream registration as an association of a stream index with a
sample provider, at most one for audio and one for video.  The record keeps the
arguments of the last `SetAudioStream` and `SetVideoStream` calls. -/
structure FFmpegReader where
  audioStreamIndex : Int
  audioSampleProvider : Option SampleProvider
  videoStreamIndex : Int
  videoSampleProvider : Option SampleProvider
  deriving DecidableEq, Repr

/-- The places where the source creates an object and tests the result for null. -/
inductive AllocSite where
  | FFmpegReader
  | AudioEncodingProperties
  | AudioSampleProvider
  | AudioStreamDescriptor
  | VideoEncodingProperties
  | VideoSampleProvider
  | VideoStreamDescriptor
  | MediaStreamSource
  deriving DecidableEq, Repr

/-- What the libraries answer.  One construction makes each of these calls at
most once per argument, so a call is the field applied to its arguments. -/
structure External where
  /-- Whether `avformat_alloc_context` returns a context. -/
  avformat_alloc_context : Bool
  /-- The call `av_dict_set(&d, key, value, 0)`: return value and dictionary afterwards. -/
  av_dict_set : AVDictionary → String → String → Int × AVDictionary
  /-- The call `avformat_open_input(&ctx, url, NULL, &d)`: return value and what is left in the dictionary. -/
  avformat_open_input : String → AVDictionary → Int × AVDictionary
  /-- The result of `CreateStreamOverRandomAccessStream`. -/
  CreateStreamOverRandomAccessStream : HRESULT
  /-- Whether `av_malloc(FILESTREAMBUFFERSZ)` returns a buffer. -/
  av_malloc : Bool
  /-- Whether `avio_alloc_context` returns a context. -/
  avio_alloc_context : Bool
  /-- The return value of `avformat_find_stream_info`. -/
  avformat_find_stream_info : Int
  /-- The call `av_find_best_stream(ctx, type, -1, -1, &codec, 0)`: return value and decoder. -/
  av_find_best_stream : AVMediaType → Int × Option AVCodec
  /-- The array `avFormatCtx->streams`. -/
  streams : Int → AVStream
  /-- The return value of `avcodec_open2(ctx, codec, NULL)`. -/
  avcodec_open2 : AVCodecContext → AVCodec → Int
  /-- Whether the object creation at a site yields a non-null object. -/
  alloc : AllocSite → Bool
  /-- The result of `AllocateResources()` on a provider handle. -/
  AllocateResources : Option SampleProvider → HRESULT
  /-- The value of `LONGLONG(avFormatCtx->duration * 10000000 / double(AV_TIME_BASE))`. -/
  durationTimeSpan : Int
  /-- The value of `static_cast<int64_t>(position / (av_q2d(streams[index]->time_base) * 10000000))`,
  from the stream index and the position. -/
  seekTarget : Int → Int → Int
  /-- The return value of `av_seek_frame(ctx, index, timestamp, 0)`. -/
  av_seek_frame : Int → Int → Int

/-! ## The object -/

/-- The members of FFmpegInteropMSS. -/
structure FFmpegInteropMSS where
  avDict : AVDictionary
  avIOCtx : Bool
  avFormatCtx : Bool
  avAudioCodecCtx : Option AVCodecContext
  avVideoCodecCtx : Option AVCodecContext
  audioStreamIndex : Int
  videoStreamIndex : Int
  fileStreamData : Bool
  fileStreamBuffer : Bool
  m_Reader : Option FFmpegReader
  audioSampleProvider : Option SampleProvider
  videoSampleProvider : Option SampleProvider
  audioStreamDescriptor : Option AudioStreamDescriptor
  videoStreamDescriptor : Option VideoStreamDescriptor
  mediaDuration : Int
  mediaStreamSource : Option MediaStreamSource
  deriving DecidableEq, Repr

/-- The constructor: the initialiser list, every handle member null. -/
def FFmpegInteropMSS.init : FFmpegInteropMSS :=
  { avDict := []
    avIOCtx := false
    avFormatCtx := false
    avAudioCodecCtx := none
    avVideoCodecCtx := none
    audioStreamIndex := AVERROR_STREAM_NOT_FOUND
    videoStreamIndex := AVERROR_STREAM_NOT_FOUND
    fileStreamData := false
    fileStreamBuffer := false
    m_Reader := none
    audioSampleProvider := none
    videoSampleProvider := none
    audioStreamDescriptor := none
    videoStreamDescriptor := none
    mediaDuration := 0
    mediaStreamSource := none }

/-- The reader a fresh `ref new FFmpegReader(avFormatCtx)` gives: nothing registered. -/
def FFmpegReader.init : FFmpegReader :=
  { audioStreamIndex := AVERROR_STREAM_NOT_FOUND
    audioSampleProvider := none
    videoStreamIndex := AVERROR_STREAM_NOT_FOUND
    videoSampleProvider := none }

/-- The call `SetAudioStream(index, provider)` on the reader. -/
def FFmpegReader.SetAudioStream (r : FFmpegReader) (index : Int) (p : Option SampleProvider) : FFmpegReader :=
  { r with audioStreamIndex := index, audioSampleProvider := p }

/-- The call `SetVideoStream(index, provider)` on the reader. -/
def FFmpegReader.SetVideoStream (r : FFmpegReader) (index : Int) (p : Option SampleProvider) : FFmpegReader :=
  { r with videoStreamIndex := index, videoSampleProvider := p }

/-- An object creation `ref new T(...)` at a site: the object, or null. -/
def External.refNew {α : Type} (ext : External) (site : AllocSite) (obj : α) : Option α :=
  if ext.alloc site then some obj else none

/-! ## Option parsing -/

/-- The loop of `ParseOptions`: one `av_dict_set` per entry, left on the first
negative return value with `E_INVALIDARG`. -/
def ParseOptions.loop (ext : External) : AVDictionary → List (String × String) → HRESULT × AVDictionary
  | d, [] => (S_OK, d)
  | d, (key, val) :: rest =>
    let r := ext.av_dict_set d key val
    if r.1 < 0 then (E_INVALIDARG, r.2) else ParseOptions.loop ext r.2 rest

/-- The method `ParseOptions(ffmpegOptions)`: fills `avDict`. -/
def ParseOptions (ext : External) (s : FFmpegInteropMSS) (ffmpegOptions : Option PropertySet) :
    HRESULT × FFmpegInteropMSS :=
  match ffmpegOptions with
  | none => (S_OK, s)
  | some opts =>
    let r := ParseOptions.loop ext s.avDict opts
    (r.1, { s with avDict := r.2 })

/-! ## Stream descriptors -/

/-- A case of the switch in `CreateAudioStreamDescriptor` that keeps the
compressed format: the properties made by the factory call, the object with a
`MediaSampleProvider`, and `useDefaultProvider` (still false). -/
def CreateAudioStreamDescriptor.passthrough (ext : External) (s : FFmpegInteropMSS)
    (props : AudioEncodingProperties) : Option AudioEncodingProperties × FFmpegInteropMSS × Bool :=
  let provider := ext.refNew AllocSite.AudioSampleProvider SampleProvider.MediaSampleProvider
  (ext.refNew AllocSite.AudioEncodingProperties props, { s with audioSampleProvider := provider },
   false)

/-- The switch on `codec_id` in `CreateAudioStreamDescriptor`: the values of
`audioProperties`, of the object and of `useDefaultProvider` after it. -/
def CreateAudioStreamDescriptor.switch (ext : External) (s : FFmpegInteropMSS)
    (avAudioCodecCtx : AVCodecContext) : Option AudioEncodingProperties × FFmpegInteropMSS × Bool :=
  match avAudioCodecCtx.codec_id with
  | AVCodecID.AV_CODEC_ID_AAC =>
    if avAudioCodecCtx.extradata_size = 0 then
      CreateAudioStreamDescriptor.passthrough ext s
        (AudioEncodingProperties.CreateAacAdts avAudioCodecCtx.sample_rate
          avAudioCodecCtx.channels avAudioCodecCtx.bit_rate)
    else
      CreateAudioStreamDescriptor.passthrough ext s
        (AudioEncodingProperties.CreateAac avAudioCodecCtx.sample_rate
          avAudioCodecCtx.channels avAudioCodecCtx.bit_rate)
  | AVCodecID.AV_CODEC_ID_MP3 =>
    CreateAudioStreamDescriptor.passthrough ext s
      (AudioEncodingProperties.CreateMp3 avAudioCodecCtx.sample_rate
        avAudioCodecCtx.channels avAudioCodecCtx.bit_rate)
  | AVCodecID.AV_CODEC_ID_WMAV1 =>
    CreateAudioStreamDescriptor.passthrough ext s
      (AudioEncodingProperties.CreateWma avAudioCodecCtx.sample_rate
        avAudioCodecCtx.channels avAudioCodecCtx.bit_rate)
  | AVCodecID.AV_CODEC_ID_WMAV2 =>
    CreateAudioStreamDescriptor.passthrough ext s
      (AudioEncodingProperties.CreateWma avAudioCodecCtx.sample_rate
        avAudioCodecCtx.channels avAudioCodecCtx.bit_rate)
  | AVCodecID.AV_CODEC_ID_WMAPRO =>
    CreateAudioStreamDescriptor.passthrough ext s
      (AudioEncodingProperties.CreateWma avAudioCodecCtx.sample_rate
        avAudioCodecCtx.channels avAudioCodecCtx.bit_rate)
  | _ => (none, s, true)

/-- The block `if (useDefaultProvider)` of `CreateAudioStreamDescriptor`: PCM
properties and an `UncompressedAudioSampleProvider`. -/
def CreateAudioStreamDescriptor.defaultProvider (ext : External) (s : FFmpegInteropMSS)
    (avAudioCodecCtx : AVCodecContext) : Option AudioEncodingProperties × FFmpegInteropMSS :=
  -- unsigned int bitsPerSample: 16 when the value is unknown (0)
  let bitsPerSample : Nat :=
    ((if avAudioCodecCtx.bits_per_coded_sample ≠ 0 then avAudioCodecCtx.bits_per_coded_sample
      else 16) % 2 ^ 32).toNat
  let provider :=
    ext.refNew AllocSite.AudioSampleProvider SampleProvider.UncompressedAudioSampleProvider
  (ext.refNew AllocSite.AudioEncodingProperties
    (AudioEncodingProperties.CreatePcm avAudioCodecCtx.sample_rate avAudioCodecCtx.channels
      bitsPerSample),
   { s with audioSampleProvider := provider })

/-- The method `CreateAudioStreamDescriptor(forceDecode)`.  The argument
`avAudioCodecCtx` is the context the member of that name points to, which the
caller has just assigned. -/
def CreateAudioStreamDescriptor (ext : External) (s : FFmpegInteropMSS)
    (avAudioCodecCtx : AVCodecContext) (forceDecode : Bool) : HRESULT × FFmpegInteropMSS :=
  -- (audioProperties, object, useDefaultProvider) after `if (!forceDecode)`
  let afterSwitch : Option AudioEncodingProperties × FFmpegInteropMSS × Bool :=
    if forceDecode = false then CreateAudioStreamDescriptor.switch ext s avAudioCodecCtx
    else (none, s, false)
  let afterDefault : Option AudioEncodingProperties × FFmpegInteropMSS :=
    if afterSwitch.2.2 then
      CreateAudioStreamDescriptor.defaultProvider ext afterSwitch.2.1 avAudioCodecCtx
    else (afterSwitch.1, afterSwitch.2.1)
  match afterDefault.1, afterDefault.2.audioSampleProvider with
  | some audioProperties, some _ =>
    let descriptor := ext.refNew AllocSite.AudioStreamDescriptor
      ({ EncodingProperties := audioProperties } : AudioStreamDescriptor)
    let s2 : FFmpegInteropMSS := { afterDefault.2 with audioStreamDescriptor := descriptor }
    if s2.audioStreamDescriptor = none then (E_OUTOFMEMORY, s2) else (S_OK, s2)
  | _, _ => (E_OUTOFMEMORY, afterDefault.2)

/-- The first half of `CreateVideoStreamDescriptor`: the properties and the
sample provider.  An early `return E_OUTOFMEMORY` is `Except.error`. -/
def CreateVideoStreamDescriptor.provider (ext : External) (s : FFmpegInteropMSS)
    (avVideoCodecCtx : AVCodecContext) (forceDecode : Bool) :
    Except (HRESULT × FFmpegInteropMSS) (VideoEncodingProperties × FFmpegInteropMSS) :=
  if avVideoCodecCtx.codec_id = AVCodecID.AV_CODEC_ID_H264 ∧ forceDecode = false then
    if ext.alloc AllocSite.VideoEncodingProperties = false then
      Except.error (E_OUTOFMEMORY, s)
    else
      let videoProperties : VideoEncodingProperties :=
        { Subtype := VideoSubtype.H264
          ProfileId := some avVideoCodecCtx.profile
          Height := some avVideoCodecCtx.height
          Width := some avVideoCodecCtx.width
          PixelAspectRatio := none
          FrameRate := none
          Bitrate := none }
      -- H.264 AVC extradata starts with 1 while non AVC one starts with 0
      let isAVC : Bool :=
        match avVideoCodecCtx.extradata with
        | none => false
        | some bytes =>
          decide (0 < avVideoCodecCtx.extradata_size) && decide (bytes.head? = some 1)
      let provider : Option SampleProvider :=
        if isAVC then
          ext.refNew AllocSite.VideoSampleProvider SampleProvider.H264AVCSampleProvider
        else
          ext.refNew AllocSite.VideoSampleProvider SampleProvider.H264SampleProvider
      let s1 : FFmpegInteropMSS := { s with videoSampleProvider := provider }
      if s1.videoSampleProvider = none then Except.error (E_OUTOFMEMORY, s1)
      else Except.ok (videoProperties, s1)
  else
    if ext.alloc AllocSite.VideoEncodingProperties = false then
      Except.error (E_OUTOFMEMORY, s)
    else
      let videoProperties : VideoEncodingProperties :=
        { Subtype := VideoSubtype.Nv12
          ProfileId := none
          Width := some avVideoCodecCtx.width
          Height := some avVideoCodecCtx.height
          PixelAspectRatio := none
          FrameRate := none
          Bitrate := none }
      let provider : Option SampleProvider :=
        ext.refNew AllocSite.VideoSampleProvider SampleProvider.UncompressedVideoSampleProvider
      let s1 : FFmpegInteropMSS := { s with videoSampleProvider := provider }
      if s1.videoSampleProvider = none then Except.error (E_OUTOFMEMORY, s1)
      else if 0 < avVideoCodecCtx.sample_aspect_ratio.num ∧ avVideoCodecCtx.sample_aspect_ratio.den ≠ 0 then
        let ratio : MediaRatio :=
          { Numerator := avVideoCodecCtx.sample_aspect_ratio.num
            Denominator := avVideoCodecCtx.sample_aspect_ratio.den }
        Except.ok ({ videoProperties with PixelAspectRatio := some ratio }, s1)
      else Except.ok (videoProperties, s1)

/-- The block "Detect the correct framerate" of `CreateVideoStreamDescriptor`:
the properties after it, from the decoder's `framerate` and the stream's
`avg_frame_rate`. -/
def CreateVideoStreamDescriptor.frameRate (videoProperties : VideoEncodingProperties)
    (framerate avg_frame_rate : AVRational) : VideoEncodingProperties :=
  if framerate.num ≠ 0 ∨ framerate.den ≠ 1 then
    let rate : MediaRatio := { Numerator := framerate.num, Denominator := framerate.den }
    { videoProperties with FrameRate := some rate }
  else if avg_frame_rate.num ≠ 0 ∨ avg_frame_rate.den ≠ 0 then
    let rate : MediaRatio :=
      { Numerator := avg_frame_rate.num, Denominator := avg_frame_rate.den }
    { videoProperties with FrameRate := some rate }
  else videoProperties

/-- The method `CreateVideoStreamDescriptor(forceDecode)`.  The argument
`avVideoCodecCtx` is the context the member of that name points to, which the
caller has just assigned. -/
def CreateVideoStreamDescriptor (ext : External) (s : FFmpegInteropMSS)
    (avVideoCodecCtx : AVCodecContext) (forceDecode : Bool) : HRESULT × FFmpegInteropMSS :=
  match CreateVideoStreamDescriptor.provider ext s avVideoCodecCtx forceDecode with
  | Except.error r => r
  | Except.ok (videoProperties, s1) =>
    let withRate := CreateVideoStreamDescriptor.frameRate videoProperties
      avVideoCodecCtx.framerate (ext.streams s1.videoStreamIndex).avg_frame_rate
    let withBitrate : VideoEncodingProperties :=
      { withRate with Bitrate := some avVideoCodecCtx.bit_rate }
    let descriptor := ext.refNew AllocSite.VideoStreamDescriptor
      ({ EncodingProperties := withBitrate } : VideoStreamDescriptor)
    let s2 : FFmpegInteropMSS := { s1 with videoStreamDescriptor := descriptor }
    if s2.videoStreamDescriptor = none then (E_OUTOFMEMORY, s2) else (S_OK, s2)

/-! ## Stream discovery -/

/-- The audio block of `InitFFmpegContext` (find the audio stream and its
decoder): the value of `hr` and the object after it. -/
def InitFFmpegContext.audio (ext : External) (s : FFmpegInteropMSS) (forceAudioDecode : Bool) :
    HRESULT × FFmpegInteropMSS :=
  let found := ext.av_find_best_stream AVMediaType.AVMEDIA_TYPE_AUDIO
  let s1 : FFmpegInteropMSS := { s with audioStreamIndex := found.1 }
  match found.2 with
  | none => (S_OK, s1)
  | some avAudioCodec =>
    if s1.audioStreamIndex ≠ AVERROR_STREAM_NOT_FOUND then
      let ctx := (ext.streams s1.audioStreamIndex).codec
      if ext.avcodec_open2 ctx avAudioCodec < 0 then
        (E_FAIL, { s1 with avAudioCodecCtx := none })
      else
        let r := CreateAudioStreamDescriptor ext { s1 with avAudioCodecCtx := some ctx } ctx
          forceAudioDecode
        if SUCCEEDED r.1 then
          let hr := ext.AllocateResources r.2.audioSampleProvider
          if SUCCEEDED hr then
            let reader := r.2.m_Reader.map
              (fun m => m.SetAudioStream r.2.audioStreamIndex r.2.audioSampleProvider)
            (hr, { r.2 with m_Reader := reader })
          else (hr, r.2)
        else r
    else (S_OK, s1)

/-- The video block of `InitFFmpegContext` (find the video stream and its
decoder), entered with the value `hr` has after the audio block: the value of
`hr` and the object after it. -/
def InitFFmpegContext.video (ext : External) (s : FFmpegInteropMSS) (hr : HRESULT)
    (forceVideoDecode : Bool) : HRESULT × FFmpegInteropMSS :=
  let found := ext.av_find_best_stream AVMediaType.AVMEDIA_TYPE_VIDEO
  let s1 : FFmpegInteropMSS := { s with videoStreamIndex := found.1 }
  match found.2 with
  | none => (hr, s1)
  | some avVideoCodec =>
    if s1.videoStreamIndex ≠ AVERROR_STREAM_NOT_FOUND then
      -- album/cover art of a music file shows up as a video stream
      if (ext.streams s1.videoStreamIndex).disposition = AV_DISPOSITION_ATTACHED_PIC then
        (hr, { s1 with videoStreamIndex := AVERROR_STREAM_NOT_FOUND })
      else
        let ctx := (ext.streams s1.videoStreamIndex).codec
        if ext.avcodec_open2 ctx avVideoCodec < 0 then
          (E_FAIL, { s1 with avVideoCodecCtx := none })
        else
          let r := CreateVideoStreamDescriptor ext { s1 with avVideoCodecCtx := some ctx } ctx
            forceVideoDecode
          if SUCCEEDED r.1 then
            let hr1 := ext.AllocateResources r.2.videoSampleProvider
            if SUCCEEDED hr1 then
              let reader := r.2.m_Reader.map
                (fun m => m.SetVideoStream r.2.videoStreamIndex r.2.videoSampleProvider)
              (hr1, { r.2 with m_Reader := reader })
            else (hr1, r.2)
          else r
    else (hr, s1)

/-- The end of `InitFFmpegContext`, from the duration conversion on: the media
stream source is created according to the descriptors present (the switch has no
default case), configured and hooked up. -/
def InitFFmpegContext.source (ext : External) (s : FFmpegInteropMSS) : HRESULT × FFmpegInteropMSS :=
  let s1 : FFmpegInteropMSS := { s with mediaDuration := ext.durationTimeSpan }
  let mode : Nat :=
    if s1.videoStreamDescriptor.isSome ∧ s1.audioStreamDescriptor.isSome then 1
    else if ¬ s1.videoStreamDescriptor.isSome ∧ s1.audioStreamDescriptor.isSome then 2
    else if s1.videoStreamDescriptor.isSome ∧ ¬ s1.audioStreamDescriptor.isSome then 3
    else 4
  let fresh (v : Option VideoStreamDescriptor) (a : Option AudioStreamDescriptor) :
      Option MediaStreamSource :=
    ext.refNew AllocSite.MediaStreamSource
      { videoStreamDescriptor := v, audioStreamDescriptor := a, Duration := none, CanSeek := none,
        BufferTime := none, Starting := false, SampleRequested := false }
  let created : Option MediaStreamSource :=
    match mode with
    | 1 => fresh s1.videoStreamDescriptor s1.audioStreamDescriptor
    | 2 => fresh none s1.audioStreamDescriptor
    | 3 => fresh s1.videoStreamDescriptor none
    | _ => s1.mediaStreamSource
  let s2 : FFmpegInteropMSS := { s1 with mediaStreamSource := created }
  match s2.mediaStreamSource with
  | none => (E_OUTOFMEMORY, s2)
  | some mss =>
    let configured : MediaStreamSource :=
      if 0 < s2.mediaDuration then
        { mss with Duration := some s2.mediaDuration, CanSeek := some true }
      else
        -- buffer time 0 for realtime streaming
        { mss with BufferTime := some 0 }
    let hooked : MediaStreamSource := { configured with Starting := true, SampleRequested := true }
    (S_OK, { s2 with mediaStreamSource := some hooked })

/-- The method `InitFFmpegContext(forceAudioDecode, forceVideoDecode)`. -/
def InitFFmpegContext (ext : External) (s : FFmpegInteropMSS)
    (forceAudioDecode forceVideoDecode : Bool) : HRESULT × FFmpegInteropMSS :=
  if ext.avformat_find_stream_info < 0 then (E_FAIL, s)
  else
    let reader := ext.refNew AllocSite.FFmpegReader FFmpegReader.init
    let s1 : FFmpegInteropMSS := { s with m_Reader := reader }
    if s1.m_Reader = none then (E_OUTOFMEMORY, s1)
    else
      let a := InitFFmpegContext.audio ext s1 forceAudioDecode
      if FAILED a.1 then a
      else
        let v := InitFFmpegContext.video ext a.2 a.1 forceVideoDecode
        if FAILED v.1 then v
        else InitFFmpegContext.source ext v.2

/-! ## Construction -/

/-- The block of both `CreateMediaStreamSource` overloads that allocates the
format context.  Like every block of these methods it runs only `if (SUCCEEDED(hr))`
and maps `hr` and the object before it to `hr` and the object after it. -/
def CreateMediaStreamSource.allocFormatContext (ext : External) (r : HRESULT × FFmpegInteropMSS) :
    HRESULT × FFmpegInteropMSS :=
  if SUCCEEDED r.1 then
    if ext.avformat_alloc_context = false then (E_OUTOFMEMORY, { r.2 with avFormatCtx := false })
    else (r.1, { r.2 with avFormatCtx := true })
  else r

/-- The block of both `CreateMediaStreamSource` overloads that calls `ParseOptions`. -/
def CreateMediaStreamSource.parseOptions (ext : External) (r : HRESULT × FFmpegInteropMSS)
    (ffmpegOptions : Option PropertySet) : HRESULT × FFmpegInteropMSS :=
  if SUCCEEDED r.1 then ParseOptions ext r.2 ffmpegOptions else r

/-- The block of both `CreateMediaStreamSource` overloads that opens the
container at `url` with the options in `avDict`.  What the call leaves in `avDict`
is reported by `DebugMessage` and freed; `hr` is not touched on that account. -/
def CreateMediaStreamSource.openInput (ext : External) (url : String)
    (r : HRESULT × FFmpegInteropMSS) : HRESULT × FFmpegInteropMSS :=
  if SUCCEEDED r.1 then
    let opened := ext.avformat_open_input url r.2.avDict
    let hr : HRESULT := if opened.1 < 0 then E_FAIL else r.1
    let s1 : FFmpegInteropMSS := { r.2 with avDict := opened.2 }
    if s1.avDict ≠ [] then (hr, { s1 with avDict := [] }) else (hr, s1)
  else r

/-- The last block of both `CreateMediaStreamSource` overloads: `InitFFmpegContext`. -/
def CreateMediaStreamSource.initContext (ext : External) (r : HRESULT × FFmpegInteropMSS)
    (forceAudioDecode forceVideoDecode : Bool) : HRESULT × FFmpegInteropMSS :=
  if SUCCEEDED r.1 then InitFFmpegContext ext r.2 forceAudioDecode forceVideoDecode else r

/-- The method `CreateMediaStreamSource(String^ uri, ...)`; a null `uri` is `none`
(the string is read only in the block that opens the container, where it is not null). -/
def CreateMediaStreamSource_Uri (ext : External) (s : FFmpegInteropMSS) (uri : Option String)
    (forceAudioDecode forceVideoDecode : Bool) (ffmpegOptions : Option PropertySet) :
    HRESULT × FFmpegInteropMSS :=
  let r0 : HRESULT × FFmpegInteropMSS := (if uri = none then E_INVALIDARG else S_OK, s)
  let r1 := CreateMediaStreamSource.allocFormatContext ext r0
  let r2 := CreateMediaStreamSource.parseOptions ext r1 ffmpegOptions
  let r3 := CreateMediaStreamSource.openInput ext (uri.getD "") r2
  CreateMediaStreamSource.initContext ext r3 forceAudioDecode forceVideoDecode

/-- The block of the stream overload that wraps the stream in an `IStream`. -/
def CreateMediaStreamSource.createStream (ext : External) (r : HRESULT × FFmpegInteropMSS) :
    HRESULT × FFmpegInteropMSS :=
  if SUCCEEDED r.1 then
    (ext.CreateStreamOverRandomAccessStream,
     { r.2 with fileStreamData := SUCCEEDED ext.CreateStreamOverRandomAccessStream })
  else r

/-- The block of the stream overload that allocates the stream buffer. -/
def CreateMediaStreamSource.allocBuffer (ext : External) (r : HRESULT × FFmpegInteropMSS) :
    HRESULT × FFmpegInteropMSS :=
  if SUCCEEDED r.1 then
    if ext.av_malloc = false then (E_OUTOFMEMORY, { r.2 with fileStreamBuffer := false })
    else (r.1, { r.2 with fileStreamBuffer := true })
  else r

/-- The block of the stream overload that allocates the custom IO context. -/
def CreateMediaStreamSource.allocIOContext (ext : External) (r : HRESULT × FFmpegInteropMSS) :
    HRESULT × FFmpegInteropMSS :=
  if SUCCEEDED r.1 then
    if ext.avio_alloc_context = false then (E_OUTOFMEMORY, { r.2 with avIOCtx := false })
    else (r.1, { r.2 with avIOCtx := true })
  else r

/-- The method `CreateMediaStreamSource(IRandomAccessStream^ stream, ...)`; a null
`stream` is `none`.  The container is opened with the empty file name. -/
def CreateMediaStreamSource_Stream (ext : External) (s : FFmpegInteropMSS)
    (stream : Option IRandomAccessStream) (forceAudioDecode forceVideoDecode : Bool)
    (ffmpegOptions : Option PropertySet) : HRESULT × FFmpegInteropMSS :=
  let r0 : HRESULT × FFmpegInteropMSS := (if stream = none then E_INVALIDARG else S_OK, s)
  let r1 := CreateMediaStreamSource.createStream ext r0
  let r2 := CreateMediaStreamSource.allocBuffer ext r1
  let r3 := CreateMediaStreamSource.allocIOContext ext r2
  let r4 := CreateMediaStreamSource.allocFormatContext ext r3
  let r5 := CreateMediaStreamSource.parseOptions ext r4 ffmpegOptions
  let r6 := CreateMediaStreamSource.openInput ext "" r5
  CreateMediaStreamSource.initContext ext r6 forceAudioDecode forceVideoDecode

/-- The factory `CreateFFmpegInteropMSSFromStream` with options; `none` is the null result. -/
def CreateFFmpegInteropMSSFromStream (ext : External) (stream : Option IRandomAccessStream)
    (forceAudioDecode forceVideoDecode : Bool) (ffmpegOptions : Option PropertySet) :
    Option FFmpegInteropMSS :=
  let r := CreateMediaStreamSource_Stream ext FFmpegInteropMSS.init stream forceAudioDecode
    forceVideoDecode ffmpegOptions
  if FAILED r.1 then none else some r.2

/-- The factory `CreateFFmpegInteropMSSFromUri` with options; `none` is the null result. -/
def CreateFFmpegInteropMSSFromUri (ext : External) (uri : Option String)
    (forceAudioDecode forceVideoDecode : Bool) (ffmpegOptions : Option PropertySet) :
    Option FFmpegInteropMSS :=
  let r := CreateMediaStreamSource_Uri ext FFmpegInteropMSS.init uri forceAudioDecode
    forceVideoDecode ffmpegOptions
  if FAILED r.1 then none else some r.2

/-! ## The Starting event -/

/-- The two elementary streams of the pipeline. -/
inductive StreamKind where
  | audio
  | video
  deriving DecidableEq, Repr

/-- A call `OnStarting` makes on a collaborator.  `Flush k` is `Flush()` on the
provider of stream `k` and `avcodec_flush_buffers k` the decoder flush of the
codec context of stream `k`. -/
inductive Call where
  | av_seek_frame (index : Int) (timestamp : Int)
  | DebugMessage (msg : String)
  | Flush (k : StreamKind)
  | avcodec_flush_buffers (k : StreamKind)
  | SetActualStartPosition (position : Int)
  deriving DecidableEq, Repr

/-- The request of the Starting event; `StartPosition` is a nullable time span. -/
structure MediaStreamSourceStartingRequest where
  StartPosition : Option Int
  deriving DecidableEq, Repr

/-- The handler `OnStarting`: the calls it makes, in order. -/
def OnStarting (ext : External) (s : FFmpegInteropMSS) (request : MediaStreamSourceStartingRequest) :
    List Call :=
  match request.StartPosition with
  | none => []
  | some position =>
    if position ≤ s.mediaDuration then
      -- the first valid stream, video before audio
      let index : Int :=
        if 0 ≤ s.videoStreamIndex then s.videoStreamIndex
        else if 0 ≤ s.audioStreamIndex then s.audioStreamIndex
        else -1
      let seek : List Call :=
        if 0 ≤ index then
          let seekTarget := ext.seekTarget index position
          Call.av_seek_frame index seekTarget ::
            (if ext.av_seek_frame index seekTarget < 0 then
              [Call.DebugMessage " - ### Error while seeking\n"]
            else
              (if s.audioSampleProvider ≠ none then
                [Call.Flush StreamKind.audio, Call.avcodec_flush_buffers StreamKind.audio]
               else []) ++
              (if s.videoSampleProvider ≠ none then
                [Call.Flush StreamKind.video, Call.avcodec_flush_buffers StreamKind.video]
               else []))
        else []
      seek ++ [Call.SetActualStartPosition position]
    else []

/-- Whether a call is a seek on the packet source. -/
def Call.isSeek : Call → Bool
  | Call.av_seek_frame _ _ => true
  | _ => false

/-- Whether a call flushes a provider or a decoder. -/
def Call.isFlush : Call → Bool
  | Call.Flush _ => true
  | Call.avcodec_flush_buffers _ => true
  | _ => false

/-- The positions reported to the host through `SetActualStartPosition`, in order. -/
def actualStartPositions (calls : List Call) : List Int :=
  calls.filterMap fun c =>
    match c with
    | Call.SetActualStartPosition p => some p
    | _ => none

/-! ## Members a block of the construction leaves alone -/

/-- A quantity read off the object that does not change when audio members and
the reader are assigned. -/
def UntouchedByAudio {α : Type} (f : FFmpegInteropMSS → α) : Prop :=
  ∀ (s : FFmpegInteropMSS) (i : Int) (c : Option AVCodecContext) (p : Option SampleProvider)
    (d : Option AudioStreamDescriptor) (r : Option FFmpegReader),
    f { s with audioStreamIndex := i, avAudioCodecCtx := c, audioSampleProvider := p,
               audioStreamDescriptor := d, m_Reader := r } = f s

/-- A quantity read off the object that does not change when video members and
the reader are assigned. -/
def UntouchedByVideo {α : Type} (f : FFmpegInteropMSS → α) : Prop :=
  ∀ (s : FFmpegInteropMSS) (i : Int) (c : Option AVCodecContext) (p : Option SampleProvider)
    (d : Option VideoStreamDescriptor) (r : Option FFmpegReader),
    f { s with videoStreamIndex := i, avVideoCodecCtx := c, videoSampleProvider := p,
               videoStreamDescriptor := d, m_Reader := r } = f s

/-- A quantity read off the object that does not change when the members set
before stream discovery (dictionary, contexts, stream buffer) are assigned. -/
def UntouchedByOpening {α : Type} (f : FFmpegInteropMSS → α) : Prop :=
  ∀ (s : FFmpegInteropMSS) (d : AVDictionary) (ic fc fd fb : Bool),
    f { s with avDict := d, avIOCtx := ic, avFormatCtx := fc, fileStreamData := fd,
               fileStreamBuffer := fb } = f s

/-! ## A sample container

Used to evaluate the code at concrete inputs. -/

/-- A codec context with every numeric field zero and no extradata. -/
def AVCodecContext.blank (id : AVCodecID) : AVCodecContext :=
  { codec_id := id
    extradata := none
    extradata_size := 0
    sample_rate := 0
    channels := 0
    bit_rate := 0
    bits_per_coded_sample := 0
    profile := 0
    width := 0
    height := 0
    sample_aspect_ratio := { num := 0, den := 1 }
    framerate := { num := 0, den := 1 } }

/-- A container with an H.264 video stream at index 0 (30 frames per second) and
an MP3 audio stream at index 1, of one minute, on which every library call
succeeds and every option is consumed. -/
def External.sample : External :=
  { avformat_alloc_context := true
    av_dict_set := fun d key val => (0, d ++ [(key, val)])
    avformat_open_input := fun _ _ => (0, [])
    CreateStreamOverRandomAccessStream := S_OK
    av_malloc := true
    avio_alloc_context := true
    avformat_find_stream_info := 0
    av_find_best_stream := fun t =>
      match t with
      | AVMediaType.AVMEDIA_TYPE_AUDIO => (1, some { id := AVCodecID.AV_CODEC_ID_MP3 })
      | AVMediaType.AVMEDIA_TYPE_VIDEO => (0, some { id := AVCodecID.AV_CODEC_ID_H264 })
    streams := fun i =>
      if i = 1 then
        { codec := AVCodecContext.blank AVCodecID.AV_CODEC_ID_MP3
          disposition := 0
          avg_frame_rate := { num := 0, den := 0 } }
      else
        { codec := AVCodecContext.blank AVCodecID.AV_CODEC_ID_H264
          disposition := 0
          avg_frame_rate := { num := 30, den := 1 } }
    avcodec_open2 := fun _ _ => 0
    alloc := fun _ => true
    AllocateResources := fun _ => S_OK
    durationTimeSpan := 600000000
    seekTarget := fun _ position => position
    av_seek_frame := fun _ _ => 0 }

/-- An object after a successful construction over the sample container, as far
as `OnStarting` reads it: both streams active, with the given duration. -/
def FFmpegInteropMSS.playing (duration : Int) : FFmpegInteropMSS :=
  { FFmpegInteropMSS.init with
    audioStreamIndex := 1
    videoStreamIndex := 0
    audioSampleProvider := some SampleProvider.MediaSampleProvider
    videoSampleProvider := some SampleProvider.H264SampleProvider
    mediaDuration := duration }

/-! ## The Starting event: when a seek is issued, what is flushed, what is reported -/

/-- The calls of `OnStarting` for an accepted request end with the report of the
requested position, and no call before it is a report. -/
theorem OnStarting_of_accepted (ext : External) (s : FFmpegInteropMSS) (T : Int)
    (h : T ≤ s.mediaDuration) :
    ∃ seek : List Call, OnStarting ext s { StartPosition := some T } =
        seek ++ [Call.SetActualStartPosition T] ∧
      ∀ c ∈ seek, ∀ p, c ≠ Call.SetActualStartPosition p := by
  simp only [OnStarting, if_pos h]
  refine ⟨_, rfl, ?_⟩
  intro c hc p
  split_ifs at hc <;> simp at hc <;> aesop

/-- The calls of `OnStarting` when the request is accepted, a stream index is
valid and the seek succeeds. -/
theorem OnStarting_of_seek_ok (ext : External) (s : FFmpegInteropMSS) (T index : Int)
    (h : T ≤ s.mediaDuration)
    (hindex : index = if 0 ≤ s.videoStreamIndex then s.videoStreamIndex
      else if 0 ≤ s.audioStreamIndex then s.audioStreamIndex else -1)
    (hvalid : 0 ≤ index)
    (hok : 0 ≤ ext.av_seek_frame index (ext.seekTarget index T)) :
    OnStarting ext s { StartPosition := some T } =
      [Call.av_seek_frame index (ext.seekTarget index T)] ++
      (if s.audioSampleProvider ≠ none then
        [Call.Flush StreamKind.audio, Call.avcodec_flush_buffers StreamKind.audio] else []) ++
      (if s.videoSampleProvider ≠ none then
        [Call.Flush StreamKind.video, Call.avcodec_flush_buffers StreamKind.video] else []) ++
      [Call.SetActualStartPosition T] := by
  subst hindex
  simp only [OnStarting, if_pos h, if_pos hvalid, if_neg (not_lt.mpr hok)]
  simp

/-- A seek call in the trace of `OnStarting` is the one on the selected stream at
the converted position of an accepted request. -/
theorem OnStarting_seek_mem (ext : External) (s : FFmpegInteropMSS)
    (request : MediaStreamSourceStartingRequest) (index timestamp : Int)
    (hseek : Call.av_seek_frame index timestamp ∈ OnStarting ext s request) :
    ∃ T, request.StartPosition = some T ∧ T ≤ s.mediaDuration ∧ 0 ≤ index ∧
      index = (if 0 ≤ s.videoStreamIndex then s.videoStreamIndex
        else if 0 ≤ s.audioStreamIndex then s.audioStreamIndex else -1) ∧
      timestamp = ext.seekTarget index T := by
  obtain ⟨pos⟩ := request
  cases pos with
  | none => simp [OnStarting] at hseek
  | some T =>
    refine ⟨T, rfl, ?_⟩
    by_cases h : T ≤ s.mediaDuration
    · refine ⟨h, ?_⟩
      simp only [OnStarting, if_pos h] at hseek
      split_ifs at hseek <;> simp at hseek <;> (obtain ⟨h1, h2⟩ := hseek; subst h1; subst h2)
        <;> simp_all <;> split_ifs <;> omega
    · simp [OnStarting, h] at hseek

/-- C1 (as amended): `OnStarting` issues a seek to the packet source exactly when
the request carries a start position T with T <= mediaDuration.Duration and one of
the two stream indexes is valid; so for every T above the duration no seek is
issued, while T equal to the duration and negative T are not turned away. -/
theorem OnStarting_seek_iff (ext : External) (s : FFmpegInteropMSS)
    (request : MediaStreamSourceStartingRequest) :
    (OnStarting ext s request).any Call.isSeek = true ↔
      ∃ T, request.StartPosition = some T ∧ T ≤ s.mediaDuration ∧
        (0 ≤ s.videoStreamIndex ∨ 0 ≤ s.audioStreamIndex) := by
  obtain ⟨pos⟩ := request
  cases pos with
  | none => simp [OnStarting]
  | some T =>
    by_cases h : T ≤ s.mediaDuration
    · simp only [OnStarting, if_pos h]
      split_ifs <;> simp_all [Call.isSeek]
    · simp [OnStarting, h]

/-- An instance of the amended C1 on a duration of 100: a seek is issued for the
start position 50 and none for the start position 101. -/
theorem OnStarting_seek_iff_witness :
    (OnStarting External.sample (FFmpegInteropMSS.playing 100)
      { StartPosition := some 50 }).any Call.isSeek = true ∧
    ¬ ((OnStarting External.sample (FFmpegInteropMSS.playing 100)
      { StartPosition := some 101 }).any Call.isSeek = true) :=
  ⟨(OnStarting_seek_iff External.sample (FFmpegInteropMSS.playing 100)
      { StartPosition := some 50 }).mpr ⟨50, rfl, by decide, Or.inl (by decide)⟩,
   fun h =>
    match (OnStarting_seek_iff External.sample (FFmpegInteropMSS.playing 100)
      { StartPosition := some 101 }).mp h with
    | ⟨_, hT, hle, _⟩ => by
      cases hT
      revert hle
      decide⟩

/-- C1 as stated fails: with duration 100 a seek is issued for the start position
100 (the end of the range) and for the start position -3 (below zero). -/
theorem OnStarting_seeks_at_duration_and_below_zero :
    (FFmpegInteropMSS.playing 100).mediaDuration = 100 ∧
    (OnStarting External.sample (FFmpegInteropMSS.playing 100)
      { StartPosition := some 100 }).any Call.isSeek = true ∧
    (OnStarting External.sample (FFmpegInteropMSS.playing 100)
      { StartPosition := some (-3) }).any Call.isSeek = true := by
  decide

/-- C2: for every start position T that `OnStarting` accepts (T <=
mediaDuration.Duration), exactly one position is reported to the host, it is T,
and it is the last call made; this holds for every behaviour of the libraries, so
whether `av_seek_frame` succeeds or fails and whether or not a stream index is valid. -/
theorem OnStarting_reports_requested_position (ext : External) (s : FFmpegInteropMSS) (T : Int)
    (h : T ≤ s.mediaDuration) :
    actualStartPositions (OnStarting ext s { StartPosition := some T }) = [T] ∧
    (OnStarting ext s { StartPosition := some T }).getLast? =
      some (Call.SetActualStartPosition T) := by
  obtain ⟨seek, hseek, hnot⟩ := OnStarting_of_accepted ext s T h
  rw [hseek]
  refine ⟨?_, by simp⟩
  have hnil : actualStartPositions seek = [] := by
    unfold actualStartPositions
    rw [List.filterMap_eq_nil_iff]
    intro c hc
    have hne := hnot c hc
    cases c with
    | SetActualStartPosition p => exact absurd rfl (hne p)
    | _ => rfl
  simp only [actualStartPositions] at hnil ⊢
  rw [List.filterMap_append, hnil]
  simp

/-- An instance of C2 with a failing seek: position 40 of a duration 100 is
reported as 40. -/
theorem OnStarting_reports_requested_position_witness :
    actualStartPositions (OnStarting { External.sample with av_seek_frame := fun _ _ => -1 }
      (FFmpegInteropMSS.playing 100) { StartPosition := some 40 }) = [40] :=
  (OnStarting_reports_requested_position { External.sample with av_seek_frame := fun _ _ => -1 }
    (FFmpegInteropMSS.playing 100) 40 (by decide)).1

/-- C3 (as amended): whenever `OnStarting` has issued a seek to the packet source
and that seek succeeded (`av_seek_frame` returned a value >= 0), every non-null
sample provider, audio and video alike and whichever stream the seek was made on,
has `Flush()` called on it, directly followed by `avcodec_flush_buffers` on its
codec context, before `OnStarting` returns. -/
theorem OnStarting_flushes_after_successful_seek (ext : External) (s : FFmpegInteropMSS)
    (request : MediaStreamSourceStartingRequest) (index timestamp : Int)
    (hseek : Call.av_seek_frame index timestamp ∈ OnStarting ext s request)
    (hok : 0 ≤ ext.av_seek_frame index timestamp) :
    (s.audioSampleProvider ≠ none →
      [Call.Flush StreamKind.audio, Call.avcodec_flush_buffers StreamKind.audio] <:+:
        OnStarting ext s request) ∧
    (s.videoSampleProvider ≠ none →
      [Call.Flush StreamKind.video, Call.avcodec_flush_buffers StreamKind.video] <:+:
        OnStarting ext s request) := by
  obtain ⟨T, hT, hle, hvalid, hindex, hts⟩ := OnStarting_seek_mem ext s request index timestamp hseek
  obtain ⟨pos⟩ := request
  simp only at hT
  subst hT
  subst hts
  rw [OnStarting_of_seek_ok ext s T index hle hindex hvalid hok]
  constructor
  · intro ha
    rw [if_pos ha]
    exact ⟨[Call.av_seek_frame index (ext.seekTarget index T)],
      (if s.videoSampleProvider ≠ none then
        [Call.Flush StreamKind.video, Call.avcodec_flush_buffers StreamKind.video] else []) ++
      [Call.SetActualStartPosition T], by simp⟩
  · intro hv
    rw [if_pos hv]
    exact ⟨[Call.av_seek_frame index (ext.seekTarget index T)] ++
      (if s.audioSampleProvider ≠ none then
        [Call.Flush StreamKind.audio, Call.avcodec_flush_buffers StreamKind.audio] else []),
      [Call.SetActualStartPosition T], by simp⟩

/-- An instance of the amended C3: a successful seek to position 40 on the sample
container flushes the audio provider and decoder although the seek was on video. -/
theorem OnStarting_flushes_after_successful_seek_witness :
    [Call.Flush StreamKind.audio, Call.avcodec_flush_buffers StreamKind.audio] <:+:
      OnStarting External.sample (FFmpegInteropMSS.playing 100) { StartPosition := some 40 } :=
  (OnStarting_flushes_after_successful_seek External.sample (FFmpegInteropMSS.playing 100)
    { StartPosition := some 40 } 0 40 (by decide) (by decide)).1 (by decide)

/-- C3 as stated fails: a seek is issued, both providers are non-null, the seek
reports an error, and neither provider nor decoder is flushed. -/
theorem OnStarting_failed_seek_flushes_nothing :
    (OnStarting { External.sample with av_seek_frame := fun _ _ => -1 }
      (FFmpegInteropMSS.playing 100) { StartPosition := some 40 }).any Call.isSeek = true ∧
    (FFmpegInteropMSS.playing 100).audioSampleProvider ≠ none ∧
    (FFmpegInteropMSS.playing 100).videoSampleProvider ≠ none ∧
    (OnStarting { External.sample with av_seek_frame := fun _ _ => -1 }
      (FFmpegInteropMSS.playing 100) { StartPosition := some 40 }).any Call.isFlush = false := by
  decide

/-- C7 (as amended): when the media duration is unknown or zero
(mediaDuration.Duration <= 0), for every starting request that has no start
position, or whose start position is above the duration or above 0,
`av_seek_frame` is not called and no provider or decoder is flushed. -/
theorem OnStarting_unknown_duration_no_seek (ext : External) (s : FFmpegInteropMSS)
    (request : MediaStreamSourceStartingRequest)
    (hD : s.mediaDuration ≤ 0)
    (hT : ∀ T, request.StartPosition = some T → s.mediaDuration < T ∨ 0 < T) :
    (OnStarting ext s request).any Call.isSeek = false ∧
    (OnStarting ext s request).any Call.isFlush = false := by
  obtain ⟨pos⟩ := request
  cases pos with
  | none => simp [OnStarting]
  | some T =>
    have hlt : ¬ T ≤ s.mediaDuration := by
      rcases hT T rfl with h | h <;> omega
    simp [OnStarting, hlt]

/-- An instance of the amended C7: on a live source (duration 0) a start at
position 5 seeks nothing and flushes nothing. -/
theorem OnStarting_unknown_duration_no_seek_witness :
    (OnStarting External.sample (FFmpegInteropMSS.playing 0)
      { StartPosition := some 5 }).any Call.isSeek = false ∧
    (OnStarting External.sample (FFmpegInteropMSS.playing 0)
      { StartPosition := some 5 }).any Call.isFlush = false :=
  OnStarting_unknown_duration_no_seek External.sample (FFmpegInteropMSS.playing 0)
    { StartPosition := some 5 } (by decide)
    (fun T hT => by
      cases hT
      exact Or.inr (by decide))

/-- C7 as stated fails: with duration 0 a starting request at position 0 calls
`av_seek_frame` and, the seek succeeding, flushes the providers. -/
theorem OnStarting_seeks_at_zero_without_duration :
    (FFmpegInteropMSS.playing 0).mediaDuration ≤ 0 ∧
    (OnStarting External.sample (FFmpegInteropMSS.playing 0)
      { StartPosition := some 0 }).any Call.isSeek = true ∧
    (OnStarting External.sample (FFmpegInteropMSS.playing 0)
      { StartPosition := some 0 }).any Call.isFlush = true := by
  decide


/-! ## What the blocks of stream discovery leave alone -/

/-- The method `CreateAudioStreamDescriptor` assigns audio members only. -/
theorem CreateAudioStreamDescriptor_untouched {α : Type} (f : FFmpegInteropMSS → α)
    (hf : UntouchedByAudio f) (ext : External) (s : FFmpegInteropMSS)
    (ctx : AVCodecContext) (forceDecode : Bool) :
    f (CreateAudioStreamDescriptor ext s ctx forceDecode).2 = f s := by
  have hp : ∀ s p, f { s with audioSampleProvider := p } = f s := fun s p => hf s _ _ p _ _
  have hd : ∀ s d, f { s with audioStreamDescriptor := d } = f s := fun s d => hf s _ _ _ d _
  have hsw : f (CreateAudioStreamDescriptor.switch ext s ctx).2.1 = f s := by
    unfold CreateAudioStreamDescriptor.switch CreateAudioStreamDescriptor.passthrough
    split <;> (try split) <;> simp only [hp]
  have h1 : f (if forceDecode = false then CreateAudioStreamDescriptor.switch ext s ctx
      else (none, s, false)).2.1 = f s := by
    split
    · exact hsw
    · rfl
  unfold CreateAudioStreamDescriptor
  simp only []
  generalize (if forceDecode = false then CreateAudioStreamDescriptor.switch ext s ctx
      else (none, s, false)) = sw at h1
  have h2 : f (if sw.2.2 = true then CreateAudioStreamDescriptor.defaultProvider ext sw.2.1 ctx
      else (sw.1, sw.2.1)).2 = f s := by
    split
    · simp only [CreateAudioStreamDescriptor.defaultProvider, hp, h1]
    · exact h1
  generalize (if sw.2.2 = true then CreateAudioStreamDescriptor.defaultProvider ext sw.2.1 ctx
      else (sw.1, sw.2.1)) = df at h2
  split
  · split <;> simp only [hd, h2]
  · exact h2

/-- The method `CreateVideoStreamDescriptor` assigns video members only. -/
theorem CreateVideoStreamDescriptor_untouched {α : Type} (f : FFmpegInteropMSS → α)
    (hf : UntouchedByVideo f) (ext : External) (s : FFmpegInteropMSS)
    (ctx : AVCodecContext) (forceDecode : Bool) :
    f (CreateVideoStreamDescriptor ext s ctx forceDecode).2 = f s := by
  have hp : ∀ s p, f { s with videoSampleProvider := p } = f s := fun s p => hf s _ _ p _ _
  have hd : ∀ s d, f { s with videoStreamDescriptor := d } = f s := fun s d => hf s _ _ _ d _
  have h1 : ∀ r, CreateVideoStreamDescriptor.provider ext s ctx forceDecode = Except.error r →
      f r.2 = f s := by
    intro r hr
    unfold CreateVideoStreamDescriptor.provider at hr
    simp only [] at hr
    split_ifs at hr <;> cases hr <;> simp only [hp]
  have h2 : ∀ r, CreateVideoStreamDescriptor.provider ext s ctx forceDecode = Except.ok r →
      f r.2 = f s := by
    intro r hr
    unfold CreateVideoStreamDescriptor.provider at hr
    simp only [] at hr
    split_ifs at hr <;> cases hr <;> simp only [hp]
  unfold CreateVideoStreamDescriptor
  split
  · next r hr => exact h1 r hr
  · next vp s1 hr =>
    have := h2 _ hr
    simp only [] at this ⊢
    split <;> simp only [hd, this]


/-- The audio block of `InitFFmpegContext` assigns audio members and the reader only. -/
theorem InitFFmpegContext_audio_untouched {α : Type} (f : FFmpegInteropMSS → α)
    (hf : UntouchedByAudio f) (ext : External) (s : FFmpegInteropMSS) (forceAudioDecode : Bool) :
    f (InitFFmpegContext.audio ext s forceAudioDecode).2 = f s := by
  have hc := CreateAudioStreamDescriptor_untouched f hf ext
  unfold InitFFmpegContext.audio
  simp only []
  split
  · exact hf s _ _ _ _ _
  · split_ifs <;> first | exact hf s _ _ _ _ _ | simp only [hf _ _ _ _ _ _, hc]

/-- The video block of `InitFFmpegContext` assigns video members and the reader only. -/
theorem InitFFmpegContext_video_untouched {α : Type} (f : FFmpegInteropMSS → α)
    (hf : UntouchedByVideo f) (ext : External) (s : FFmpegInteropMSS) (hr0 : HRESULT)
    (forceVideoDecode : Bool) :
    f (InitFFmpegContext.video ext s hr0 forceVideoDecode).2 = f s := by
  have hc := CreateVideoStreamDescriptor_untouched f hf ext
  unfold InitFFmpegContext.video
  simp only []
  split
  · exact hf s _ _ _ _ _
  · split_ifs <;> first | exact hf s _ _ _ _ _ | simp only [hf _ _ _ _ _ _, hc]

/-- The media stream source is no audio member. -/
theorem mediaStreamSource_untouchedByAudio :
    UntouchedByAudio (fun s : FFmpegInteropMSS => s.mediaStreamSource) :=
  fun _ _ _ _ _ _ => rfl

/-- The media stream source is no video member. -/
theorem mediaStreamSource_untouchedByVideo :
    UntouchedByVideo (fun s : FFmpegInteropMSS => s.mediaStreamSource) :=
  fun _ _ _ _ _ _ => rfl

/-- What `InitFFmpegContext.source` returns when the object has no media stream
source on entry. -/
theorem InitFFmpegContext_source_spec (ext : External) (s : FFmpegInteropMSS)
    (hnone : s.mediaStreamSource = none) :
    ((InitFFmpegContext.source ext s).1 = S_OK ∨ (InitFFmpegContext.source ext s).1 = E_OUTOFMEMORY) ∧
    ((InitFFmpegContext.source ext s).1 = E_OUTOFMEMORY →
      (InitFFmpegContext.source ext s).2.mediaStreamSource = none) ∧
    ((s.videoStreamDescriptor = none ∧ s.audioStreamDescriptor = none) →
      (InitFFmpegContext.source ext s).1 = E_OUTOFMEMORY) ∧
    ((InitFFmpegContext.source ext s).1 = S_OK →
      (InitFFmpegContext.source ext s).2.mediaDuration = ext.durationTimeSpan ∧
      ∃ mss, (InitFFmpegContext.source ext s).2.mediaStreamSource = some mss ∧
        mss.Starting = true ∧ mss.SampleRequested = true ∧
        ((0 < ext.durationTimeSpan ∧ mss.Duration = some ext.durationTimeSpan ∧
            mss.CanSeek = some true ∧ mss.BufferTime = none) ∨
         (ext.durationTimeSpan ≤ 0 ∧ mss.Duration = none ∧ mss.CanSeek = none ∧
            mss.BufferTime = some 0))) := by
  have hne : E_OUTOFMEMORY ≠ S_OK := by decide
  unfold InitFFmpegContext.source
  simp only [hnone]
  cases hv : s.videoStreamDescriptor <;> cases ha : s.audioStreamDescriptor <;>
    cases hm : ext.alloc AllocSite.MediaStreamSource <;>
    by_cases hd : 0 < ext.durationTimeSpan <;>
    simp [External.refNew, hm, hd, hne, hne.symm] <;> omega


/-! ## The video descriptor: bitstream variant and frame rate -/

/-- An early return of the first half of `CreateVideoStreamDescriptor` is `E_OUTOFMEMORY`. -/
theorem CreateVideoStreamDescriptor_provider_error (ext : External) (s : FFmpegInteropMSS)
    (ctx : AVCodecContext) (forceDecode : Bool) (r : HRESULT × FFmpegInteropMSS)
    (h : CreateVideoStreamDescriptor.provider ext s ctx forceDecode = Except.error r) :
    r.1 = E_OUTOFMEMORY := by
  unfold CreateVideoStreamDescriptor.provider at h
  simp only [] at h
  split_ifs at h <;> cases h <;> rfl

/-- The first half of `CreateVideoStreamDescriptor` sets no frame rate and leaves
the video stream index alone. -/
theorem CreateVideoStreamDescriptor_provider_ok (ext : External) (s : FFmpegInteropMSS)
    (ctx : AVCodecContext) (forceDecode : Bool) (vp : VideoEncodingProperties)
    (s1 : FFmpegInteropMSS)
    (h : CreateVideoStreamDescriptor.provider ext s ctx forceDecode = Except.ok (vp, s1)) :
    vp.FrameRate = none ∧ s1.videoStreamIndex = s.videoStreamIndex := by
  unfold CreateVideoStreamDescriptor.provider at h
  simp only [] at h
  split_ifs at h <;> cases h <;> exact ⟨rfl, rfl⟩

/-- The sample provider `CreateVideoStreamDescriptor` creates for H.264 without
forced decode, allocation failures aside. -/
theorem CreateVideoStreamDescriptor_h264_provider (ext : External) (s : FFmpegInteropMSS)
    (ctx : AVCodecContext)
    (hcodec : ctx.codec_id = AVCodecID.AV_CODEC_ID_H264)
    (hprops : ext.alloc AllocSite.VideoEncodingProperties = true)
    (hprov : ext.alloc AllocSite.VideoSampleProvider = true) :
    (CreateVideoStreamDescriptor ext s ctx false).2.videoSampleProvider =
      some (if (match ctx.extradata with
                | none => false
                | some bytes => decide (0 < ctx.extradata_size) && decide (bytes.head? = some 1))
              = true
            then SampleProvider.H264AVCSampleProvider else SampleProvider.H264SampleProvider) := by
  unfold CreateVideoStreamDescriptor CreateVideoStreamDescriptor.provider
  simp only [hcodec, hprops, hprov, External.refNew, and_self, if_true, Bool.true_eq_false,
    if_false]
  split_ifs <;> simp_all


/-- C9: for an H.264 video stream without forced decode (allocation failures
aside), `CreateVideoStreamDescriptor` creates the AVC (length-prefixed) provider
if and only if extradata is non-null, extradata_size > 0 and the first byte of
extradata is 1, and the Annex-B H264 provider in every other case, in particular
when extradata is null or extradata_size is not positive, whatever the bytes are. -/
theorem CreateVideoStreamDescriptor_h264_variant (ext : External) (s : FFmpegInteropMSS)
    (ctx : AVCodecContext)
    (hcodec : ctx.codec_id = AVCodecID.AV_CODEC_ID_H264)
    (hprops : ext.alloc AllocSite.VideoEncodingProperties = true)
    (hprov : ext.alloc AllocSite.VideoSampleProvider = true) :
    ((CreateVideoStreamDescriptor ext s ctx false).2.videoSampleProvider =
        some SampleProvider.H264AVCSampleProvider ↔
      ∃ bytes, ctx.extradata = some bytes ∧ 0 < ctx.extradata_size ∧ bytes.head? = some 1) ∧
    ((CreateVideoStreamDescriptor ext s ctx false).2.videoSampleProvider =
        some SampleProvider.H264SampleProvider ↔
      ¬ ∃ bytes, ctx.extradata = some bytes ∧ 0 < ctx.extradata_size ∧ bytes.head? = some 1) ∧
    (ctx.extradata = none ∨ ctx.extradata_size ≤ 0 →
      (CreateVideoStreamDescriptor ext s ctx false).2.videoSampleProvider =
        some SampleProvider.H264SampleProvider) := by
  rw [CreateVideoStreamDescriptor_h264_provider ext s ctx hcodec hprops hprov]
  cases hx : ctx.extradata with
  | none => simp
  | some bytes =>
    by_cases hsize : 0 < ctx.extradata_size
    · by_cases hb : bytes.head? = some 1
      · simp [hsize, hb]
      · simp [hsize, hb]
    · have hle : ctx.extradata_size ≤ 0 := by omega
      simp [hsize, hle]

/-- An instance of C9: extradata starting with the byte 1 selects the AVC provider. -/
theorem CreateVideoStreamDescriptor_h264_variant_witness :
    (CreateVideoStreamDescriptor External.sample (FFmpegInteropMSS.playing 100)
      { AVCodecContext.blank AVCodecID.AV_CODEC_ID_H264 with
        extradata := some [1, 100, 0, 31], extradata_size := 4 } false).2.videoSampleProvider =
      some SampleProvider.H264AVCSampleProvider :=
  (CreateVideoStreamDescriptor_h264_variant External.sample (FFmpegInteropMSS.playing 100)
    { AVCodecContext.blank AVCodecID.AV_CODEC_ID_H264 with
      extradata := some [1, 100, 0, 31], extradata_size := 4 } rfl rfl rfl).1.mpr
    ⟨[1, 100, 0, 31], rfl, by decide, rfl⟩

/-- C10 (as amended): on success the frame rate of the descriptor follows a
three-step fallback: if the decoder's framerate differs from 0/1 (numerator not
0 or denominator not 1) the frame rate is assigned from it; otherwise, if the
container's avg_frame_rate differs from 0/0 the frame rate is assigned from that;
otherwise the frame rate is left unset. -/
theorem CreateVideoStreamDescriptor_frame_rate (ext : External) (s : FFmpegInteropMSS)
    (ctx : AVCodecContext) (forceDecode : Bool)
    (hok : SUCCEEDED (CreateVideoStreamDescriptor ext s ctx forceDecode).1 = true) :
    ∃ d, (CreateVideoStreamDescriptor ext s ctx forceDecode).2.videoStreamDescriptor = some d ∧
      d.EncodingProperties.FrameRate =
        if ctx.framerate.num ≠ 0 ∨ ctx.framerate.den ≠ 1 then
          some { Numerator := ctx.framerate.num, Denominator := ctx.framerate.den }
        else if (ext.streams s.videoStreamIndex).avg_frame_rate.num ≠ 0 ∨
            (ext.streams s.videoStreamIndex).avg_frame_rate.den ≠ 0 then
          some { Numerator := (ext.streams s.videoStreamIndex).avg_frame_rate.num
                 Denominator := (ext.streams s.videoStreamIndex).avg_frame_rate.den }
        else none := by
  have hmem : ¬ (0 ≤ E_OUTOFMEMORY) := by decide
  unfold CreateVideoStreamDescriptor at hok ⊢
  split at hok
  · next r hr =>
    have := CreateVideoStreamDescriptor_provider_error ext s ctx forceDecode r hr
    simp [SUCCEEDED, this, hmem] at hok
  · next vp s1 hr =>
    obtain ⟨hrate, hidx⟩ := CreateVideoStreamDescriptor_provider_ok ext s ctx forceDecode vp s1 hr
    simp only [] at hok ⊢
    cases halloc : ext.alloc AllocSite.VideoStreamDescriptor
    · simp [External.refNew, halloc, SUCCEEDED, hmem] at hok
    · simp only [External.refNew, halloc, if_true, hidx]
      refine ⟨_, rfl, ?_⟩
      unfold CreateVideoStreamDescriptor.frameRate
      split_ifs <;> simp_all

/-- An instance of the amended C10: a decoder without a frame rate (0/1) and a
container average of 30/1 give the descriptor 30/1. -/
theorem CreateVideoStreamDescriptor_frame_rate_witness :
    ∃ d, (CreateVideoStreamDescriptor External.sample (FFmpegInteropMSS.playing 100)
        (AVCodecContext.blank AVCodecID.AV_CODEC_ID_H264) false).2.videoStreamDescriptor = some d ∧
      d.EncodingProperties.FrameRate = some { Numerator := 30, Denominator := 1 } :=
  CreateVideoStreamDescriptor_frame_rate External.sample (FFmpegInteropMSS.playing 100)
    (AVCodecContext.blank AVCodecID.AV_CODEC_ID_H264) false (by decide)

/-- C10 as stated fails: a decoder framerate of 0/0 is not a usable rate and the
container average is 30/1, yet the descriptor is assigned 0/0; and with the decoder
at 0/1 and a container average of 0/1 the descriptor is assigned 0/1, a rate with
numerator 0. -/
theorem CreateVideoStreamDescriptor_assigns_zero_rate :
    ((CreateVideoStreamDescriptor External.sample (FFmpegInteropMSS.playing 100)
        { AVCodecContext.blank AVCodecID.AV_CODEC_ID_H264 with framerate := { num := 0, den := 0 } }
        false).2.videoStreamDescriptor.map fun d => d.EncodingProperties.FrameRate) =
      some (some { Numerator := 0, Denominator := 0 }) ∧
    (External.sample.streams (FFmpegInteropMSS.playing 100).videoStreamIndex).avg_frame_rate =
      { num := 30, den := 1 } ∧
    ((CreateVideoStreamDescriptor
        { External.sample with streams := fun _ =>
            { codec := AVCodecContext.blank AVCodecID.AV_CODEC_ID_H264
              disposition := 0
              avg_frame_rate := { num := 0, den := 1 } } }
        (FFmpegInteropMSS.playing 100) (AVCodecContext.blank AVCodecID.AV_CODEC_ID_H264)
        false).2.videoStreamDescriptor.map fun d => d.EncodingProperties.FrameRate) =
      some (some { Numerator := 0, Denominator := 1 }) := by
  decide


/-! ## Stream discovery and the media stream source -/

/-- The three ways `InitFFmpegContext` ends: with a failure before the media
stream source is considered (the object's media stream source is as on entry), or
as the last part run on an object whose media stream source is as on entry and which
the audio and the video block have produced. -/
theorem InitFFmpegContext_cases (ext : External) (s : FFmpegInteropMSS)
    (forceAudioDecode forceVideoDecode : Bool) :
    (FAILED (InitFFmpegContext ext s forceAudioDecode forceVideoDecode).1 = true ∧
      (InitFFmpegContext ext s forceAudioDecode forceVideoDecode).2.mediaStreamSource =
        s.mediaStreamSource) ∨
    (0 ≤ ext.avformat_find_stream_info ∧ ext.alloc AllocSite.FFmpegReader = true ∧
      ∃ a v : HRESULT × FFmpegInteropMSS,
        a = InitFFmpegContext.audio ext { s with m_Reader := some FFmpegReader.init }
          forceAudioDecode ∧
        FAILED a.1 = false ∧
        v = InitFFmpegContext.video ext a.2 a.1 forceVideoDecode ∧
        FAILED v.1 = false ∧
        v.2.mediaStreamSource = s.mediaStreamSource ∧
        InitFFmpegContext ext s forceAudioDecode forceVideoDecode =
          InitFFmpegContext.source ext v.2) := by
  have hA := fun s1 => InitFFmpegContext_audio_untouched _ mediaStreamSource_untouchedByAudio
    ext s1 forceAudioDecode
  have hV := fun s1 hr => InitFFmpegContext_video_untouched _ mediaStreamSource_untouchedByVideo
    ext s1 hr forceVideoDecode
  simp only at hA hV
  unfold InitFFmpegContext
  by_cases hinfo : ext.avformat_find_stream_info < 0
  · left
    simp only [if_pos hinfo]
    exact ⟨by decide, trivial⟩
  · simp only [if_neg hinfo]
    cases hreader : ext.alloc AllocSite.FFmpegReader
    · left
      simp only [External.refNew, hreader, Bool.false_eq_true, if_false, if_true]
      exact ⟨by decide, trivial⟩
    · simp only [External.refNew, hreader, if_true, reduceCtorEq, if_false]
      by_cases ha : FAILED (InitFFmpegContext.audio ext { s with m_Reader := some FFmpegReader.init }
          forceAudioDecode).1 = true
      · left
        simp only [if_pos ha]
        exact ⟨ha, hA _⟩
      · simp only [if_neg ha]
        by_cases hv : FAILED (InitFFmpegContext.video ext
            (InitFFmpegContext.audio ext { s with m_Reader := some FFmpegReader.init }
              forceAudioDecode).2
            (InitFFmpegContext.audio ext { s with m_Reader := some FFmpegReader.init }
              forceAudioDecode).1 forceVideoDecode).1 = true
        · left
          simp only [if_pos hv]
          exact ⟨hv, (hV _ _).trans (hA _)⟩
        · right
          simp only [if_neg hv]
          refine ⟨by omega, trivial, _, _, rfl, by simpa using ha, rfl, by simpa using hv,
            (hV _ _).trans (hA _), rfl⟩

/-- C6: on every successful return of `InitFFmpegContext` (called, as the
construction does, on an object that has no media stream source yet) the media
stream source exists and is in exactly one of two configurations: if the computed
media duration is greater than zero, `Duration` is that value, `CanSeek` is true
and `BufferTime` is not assigned; if it is zero or negative, `Duration` and
`CanSeek` are not assigned and `BufferTime` is 0. -/
theorem InitFFmpegContext_success_configuration (ext : External) (s : FFmpegInteropMSS)
    (forceAudioDecode forceVideoDecode : Bool)
    (hnone : s.mediaStreamSource = none)
    (hok : SUCCEEDED (InitFFmpegContext ext s forceAudioDecode forceVideoDecode).1 = true) :
    (InitFFmpegContext ext s forceAudioDecode forceVideoDecode).2.mediaDuration =
      ext.durationTimeSpan ∧
    ∃ mss, (InitFFmpegContext ext s forceAudioDecode forceVideoDecode).2.mediaStreamSource =
        some mss ∧
      ((0 < (InitFFmpegContext ext s forceAudioDecode forceVideoDecode).2.mediaDuration ∧
          mss.Duration =
            some (InitFFmpegContext ext s forceAudioDecode forceVideoDecode).2.mediaDuration ∧
          mss.CanSeek = some true ∧ mss.BufferTime = none) ∨
       ((InitFFmpegContext ext s forceAudioDecode forceVideoDecode).2.mediaDuration ≤ 0 ∧
          mss.Duration = none ∧ mss.CanSeek = none ∧ mss.BufferTime = some 0)) := by
  have hmem : ¬ (0 ≤ E_OUTOFMEMORY) := by decide
  rcases InitFFmpegContext_cases ext s forceAudioDecode forceVideoDecode with
    ⟨hfail, _⟩ | ⟨_, _, a, v, _, _, _, _, hmss, heq⟩
  · simp only [SUCCEEDED, FAILED, decide_eq_true_eq] at hok hfail
    exact absurd hfail (not_lt.mpr hok)
  · rw [heq] at hok ⊢
    obtain ⟨hhr, _, _, hcfg⟩ := InitFFmpegContext_source_spec ext v.2 (hmss.trans hnone)
    have hS : (InitFFmpegContext.source ext v.2).1 = S_OK := by
      rcases hhr with h | h
      · exact h
      · rw [h] at hok
        simp [SUCCEEDED, hmem] at hok
    obtain ⟨hdur, mss, hsome, _, _, hconf⟩ := hcfg hS
    refine ⟨hdur, mss, hsome, ?_⟩
    rw [hdur]
    exact hconf

/-- An instance of C6: the sample container (one minute) gets a seekable source
with that duration. -/
theorem InitFFmpegContext_success_configuration_witness :
    ∃ mss, (InitFFmpegContext External.sample FFmpegInteropMSS.init false false).2.mediaStreamSource =
        some mss ∧
      mss.Duration = some 600000000 ∧ mss.CanSeek = some true ∧ mss.BufferTime = none := by
  obtain ⟨_, mss, hsome, hconf⟩ := InitFFmpegContext_success_configuration External.sample
    FFmpegInteropMSS.init false false rfl (by decide)
  refine ⟨mss, hsome, ?_⟩
  rcases hconf with ⟨_, hD, hC, hB⟩ | ⟨hle, _⟩
  · exact ⟨hD, hC, hB⟩
  · exact absurd hle (by decide)


/-- Without an audio stream or without a decoder for it the audio block only
records the index. -/
theorem InitFFmpegContext_audio_not_found (ext : External) (s : FFmpegInteropMSS)
    (forceAudioDecode : Bool)
    (hA : (ext.av_find_best_stream AVMediaType.AVMEDIA_TYPE_AUDIO).1 = AVERROR_STREAM_NOT_FOUND ∨
      (ext.av_find_best_stream AVMediaType.AVMEDIA_TYPE_AUDIO).2 = none) :
    InitFFmpegContext.audio ext s forceAudioDecode =
      (S_OK, { s with audioStreamIndex :=
        (ext.av_find_best_stream AVMediaType.AVMEDIA_TYPE_AUDIO).1 }) := by
  unfold InitFFmpegContext.audio
  simp only []
  split
  · rfl
  · next codec hcodec =>
    rcases hA with h | h
    · simp [h]
    · rw [h] at hcodec
      cases hcodec

/-- Without a video stream, without a decoder for it, or with cover art as the
video stream, the video block leaves `hr` and the video descriptor as they are. -/
theorem InitFFmpegContext_video_not_found (ext : External) (s : FFmpegInteropMSS)
    (hr : HRESULT) (forceVideoDecode : Bool)
    (hV : (ext.av_find_best_stream AVMediaType.AVMEDIA_TYPE_VIDEO).1 = AVERROR_STREAM_NOT_FOUND ∨
      (ext.av_find_best_stream AVMediaType.AVMEDIA_TYPE_VIDEO).2 = none ∨
      (ext.streams (ext.av_find_best_stream AVMediaType.AVMEDIA_TYPE_VIDEO).1).disposition =
        AV_DISPOSITION_ATTACHED_PIC) :
    (InitFFmpegContext.video ext s hr forceVideoDecode).1 = hr ∧
    (InitFFmpegContext.video ext s hr forceVideoDecode).2.videoStreamDescriptor =
      s.videoStreamDescriptor := by
  unfold InitFFmpegContext.video
  simp only []
  split
  · exact ⟨rfl, rfl⟩
  · next codec hcodec =>
    rcases hV with h | h | h
    · simp [h]
    · rw [h] at hcodec
      cases hcodec
    · by_cases hnf : (ext.av_find_best_stream AVMediaType.AVMEDIA_TYPE_VIDEO).1 =
          AVERROR_STREAM_NOT_FOUND
      · simp [hnf]
      · simp [hnf, h]

/-- The audio descriptor is no video member. -/
theorem audioStreamDescriptor_untouchedByVideo :
    UntouchedByVideo (fun s : FFmpegInteropMSS => s.audioStreamDescriptor) :=
  fun _ _ _ _ _ _ => rfl

/-- Stream discovery that ends without a descriptor fails and creates no media
stream source. -/
theorem InitFFmpegContext_without_streams (ext : External)
    (hA : (ext.av_find_best_stream AVMediaType.AVMEDIA_TYPE_AUDIO).1 = AVERROR_STREAM_NOT_FOUND ∨
      (ext.av_find_best_stream AVMediaType.AVMEDIA_TYPE_AUDIO).2 = none)
    (hV : (ext.av_find_best_stream AVMediaType.AVMEDIA_TYPE_VIDEO).1 = AVERROR_STREAM_NOT_FOUND ∨
      (ext.av_find_best_stream AVMediaType.AVMEDIA_TYPE_VIDEO).2 = none ∨
      (ext.streams (ext.av_find_best_stream AVMediaType.AVMEDIA_TYPE_VIDEO).1).disposition =
        AV_DISPOSITION_ATTACHED_PIC)
    (s : FFmpegInteropMSS) (forceAudioDecode forceVideoDecode : Bool)
    (hmss : s.mediaStreamSource = none) (hau : s.audioStreamDescriptor = none)
    (hvi : s.videoStreamDescriptor = none) :
    FAILED (InitFFmpegContext ext s forceAudioDecode forceVideoDecode).1 = true ∧
    (InitFFmpegContext ext s forceAudioDecode forceVideoDecode).2.mediaStreamSource = none := by
  rcases InitFFmpegContext_cases ext s forceAudioDecode forceVideoDecode with
    ⟨hfail, hsame⟩ | ⟨_, _, a, v, ha, _, hv, _, hvm, heq⟩
  · exact ⟨hfail, hsame.trans hmss⟩
  · rw [InitFFmpegContext_audio_not_found ext _ forceAudioDecode hA] at ha
    have hvd : v.2.videoStreamDescriptor = none := by
      rw [hv, (InitFFmpegContext_video_not_found ext a.2 a.1 forceVideoDecode hV).2, ha]
      exact hvi
    have had : v.2.audioStreamDescriptor = none := by
      rw [hv]
      have := InitFFmpegContext_video_untouched _ audioStreamDescriptor_untouchedByVideo ext
        a.2 a.1 forceVideoDecode
      simp only at this
      rw [this, ha]
      exact hau
    obtain ⟨_, hoom, hempty, _⟩ := InitFFmpegContext_source_spec ext v.2 (hvm.trans hmss)
    have hE := hempty ⟨hvd, had⟩
    rw [heq]
    refine ⟨?_, hoom hE⟩
    rw [hE]
    decide

/-- Option parsing assigns only the dictionary. -/
theorem ParseOptions_untouched {α : Type} (f : FFmpegInteropMSS → α)
    (hf : UntouchedByOpening f) (ext : External) (s : FFmpegInteropMSS)
    (ffmpegOptions : Option PropertySet) :
    f (ParseOptions ext s ffmpegOptions).2 = f s := by
  unfold ParseOptions
  split
  · rfl
  · exact hf s _ _ _ _ _

/-- The blocks before stream discovery assign only members set at opening. -/
theorem CreateMediaStreamSource_blocks_untouched {α : Type} (f : FFmpegInteropMSS → α)
    (hf : UntouchedByOpening f) (ext : External) (r : HRESULT × FFmpegInteropMSS) :
    f (CreateMediaStreamSource.allocFormatContext ext r).2 = f r.2 ∧
    (∀ o, f (CreateMediaStreamSource.parseOptions ext r o).2 = f r.2) ∧
    (∀ url, f (CreateMediaStreamSource.openInput ext url r).2 = f r.2) ∧
    f (CreateMediaStreamSource.createStream ext r).2 = f r.2 ∧
    f (CreateMediaStreamSource.allocBuffer ext r).2 = f r.2 ∧
    f (CreateMediaStreamSource.allocIOContext ext r).2 = f r.2 := by
  have hP := ParseOptions_untouched f hf ext
  refine ⟨?_, ?_, ?_, ?_, ?_, ?_⟩
  · unfold CreateMediaStreamSource.allocFormatContext
    split_ifs <;> first | rfl | exact hf r.2 _ _ _ _ _
  · intro o
    unfold CreateMediaStreamSource.parseOptions
    split_ifs <;> first | rfl | exact hP _ _
  · intro url
    unfold CreateMediaStreamSource.openInput
    simp only []
    split_ifs <;> first | rfl | exact hf r.2 _ _ _ _ _
  · unfold CreateMediaStreamSource.createStream
    split_ifs <;> first | rfl | exact hf r.2 _ _ _ _ _
  · unfold CreateMediaStreamSource.allocBuffer
    split_ifs <;> first | rfl | exact hf r.2 _ _ _ _ _
  · unfold CreateMediaStreamSource.allocIOContext
    split_ifs <;> first | rfl | exact hf r.2 _ _ _ _ _


/-- A result code that does not satisfy `SUCCEEDED` satisfies `FAILED`. -/
theorem FAILED_of_not_SUCCEEDED (hr : HRESULT) (h : ¬ SUCCEEDED hr = true) : FAILED hr = true := by
  simp only [SUCCEEDED, FAILED, decide_eq_true_eq] at h ⊢
  exact not_le.mp h

/-- With no stream to describe, the last block of `CreateMediaStreamSource` ends
in failure without a media stream source. -/
theorem CreateMediaStreamSource_initContext_without_streams (ext : External)
    (hA : (ext.av_find_best_stream AVMediaType.AVMEDIA_TYPE_AUDIO).1 = AVERROR_STREAM_NOT_FOUND ∨
      (ext.av_find_best_stream AVMediaType.AVMEDIA_TYPE_AUDIO).2 = none)
    (hV : (ext.av_find_best_stream AVMediaType.AVMEDIA_TYPE_VIDEO).1 = AVERROR_STREAM_NOT_FOUND ∨
      (ext.av_find_best_stream AVMediaType.AVMEDIA_TYPE_VIDEO).2 = none ∨
      (ext.streams (ext.av_find_best_stream AVMediaType.AVMEDIA_TYPE_VIDEO).1).disposition =
        AV_DISPOSITION_ATTACHED_PIC)
    (r : HRESULT × FFmpegInteropMSS) (forceAudioDecode forceVideoDecode : Bool)
    (hmss : r.2.mediaStreamSource = none) (hau : r.2.audioStreamDescriptor = none)
    (hvi : r.2.videoStreamDescriptor = none) :
    FAILED (CreateMediaStreamSource.initContext ext r forceAudioDecode forceVideoDecode).1 = true ∧
    (CreateMediaStreamSource.initContext ext r forceAudioDecode
      forceVideoDecode).2.mediaStreamSource = none := by
  unfold CreateMediaStreamSource.initContext
  by_cases h : SUCCEEDED r.1 = true
  · rw [if_pos h]
    exact InitFFmpegContext_without_streams ext hA hV r.2 forceAudioDecode forceVideoDecode
      hmss hau hvi
  · rw [if_neg h]
    exact ⟨FAILED_of_not_SUCCEEDED r.1 h, hmss⟩

/-- The URI overload reaches its last block with every member that is not set at
opening as on entry. -/
theorem CreateMediaStreamSource_Uri_untouched {α : Type} (f : FFmpegInteropMSS → α)
    (hf : UntouchedByOpening f) (ext : External) (s : FFmpegInteropMSS) (uri : Option String)
    (ffmpegOptions : Option PropertySet) :
    f (CreateMediaStreamSource.openInput ext (uri.getD "")
        (CreateMediaStreamSource.parseOptions ext
          (CreateMediaStreamSource.allocFormatContext ext
            (if uri = none then E_INVALIDARG else S_OK, s)) ffmpegOptions)).2 = f s := by
  rw [(CreateMediaStreamSource_blocks_untouched f hf ext _).2.2.1,
    (CreateMediaStreamSource_blocks_untouched f hf ext _).2.1,
    (CreateMediaStreamSource_blocks_untouched f hf ext _).1]

/-- The stream overload reaches its last block with every member that is not set
at opening as on entry. -/
theorem CreateMediaStreamSource_Stream_untouched {α : Type} (f : FFmpegInteropMSS → α)
    (hf : UntouchedByOpening f) (ext : External) (s : FFmpegInteropMSS)
    (stream : Option IRandomAccessStream) (ffmpegOptions : Option PropertySet) :
    f (CreateMediaStreamSource.openInput ext ""
        (CreateMediaStreamSource.parseOptions ext
          (CreateMediaStreamSource.allocFormatContext ext
            (CreateMediaStreamSource.allocIOContext ext
              (CreateMediaStreamSource.allocBuffer ext
                (CreateMediaStreamSource.createStream ext
                  (if stream = none then E_INVALIDARG else S_OK, s))))) ffmpegOptions)).2 = f s := by
  rw [(CreateMediaStreamSource_blocks_untouched f hf ext _).2.2.1,
    (CreateMediaStreamSource_blocks_untouched f hf ext _).2.1,
    (CreateMediaStreamSource_blocks_untouched f hf ext _).1,
    (CreateMediaStreamSource_blocks_untouched f hf ext _).2.2.2.2.2,
    (CreateMediaStreamSource_blocks_untouched f hf ext _).2.2.2.2.1,
    (CreateMediaStreamSource_blocks_untouched f hf ext _).2.2.2.1]

/-- C8: if stream discovery finds no audio stream (none, or none with a decoder)
and no video stream (none, none with a decoder, or only cover art), then
`InitFFmpegContext`, run on an object without descriptors and media stream source
as the construction does, returns a failure HRESULT and leaves the object without a
media stream source, so no event handler is registered; and both factory
functions return null whatever their arguments. -/
theorem InitFFmpegContext_no_stream_no_pipeline (ext : External)
    (hA : (ext.av_find_best_stream AVMediaType.AVMEDIA_TYPE_AUDIO).1 = AVERROR_STREAM_NOT_FOUND ∨
      (ext.av_find_best_stream AVMediaType.AVMEDIA_TYPE_AUDIO).2 = none)
    (hV : (ext.av_find_best_stream AVMediaType.AVMEDIA_TYPE_VIDEO).1 = AVERROR_STREAM_NOT_FOUND ∨
      (ext.av_find_best_stream AVMediaType.AVMEDIA_TYPE_VIDEO).2 = none ∨
      (ext.streams (ext.av_find_best_stream AVMediaType.AVMEDIA_TYPE_VIDEO).1).disposition =
        AV_DISPOSITION_ATTACHED_PIC) :
    (∀ (s : FFmpegInteropMSS) (forceAudioDecode forceVideoDecode : Bool),
      s.mediaStreamSource = none → s.audioStreamDescriptor = none →
      s.videoStreamDescriptor = none →
      FAILED (InitFFmpegContext ext s forceAudioDecode forceVideoDecode).1 = true ∧
      (InitFFmpegContext ext s forceAudioDecode forceVideoDecode).2.mediaStreamSource = none) ∧
    (∀ (uri : Option String) (forceAudioDecode forceVideoDecode : Bool)
      (ffmpegOptions : Option PropertySet),
      CreateFFmpegInteropMSSFromUri ext uri forceAudioDecode forceVideoDecode ffmpegOptions =
        none) ∧
    (∀ (stream : Option IRandomAccessStream) (forceAudioDecode forceVideoDecode : Bool)
      (ffmpegOptions : Option PropertySet),
      CreateFFmpegInteropMSSFromStream ext stream forceAudioDecode forceVideoDecode ffmpegOptions =
        none) := by
  refine ⟨fun s fa fv hmss hau hvi =>
    InitFFmpegContext_without_streams ext hA hV s fa fv hmss hau hvi, ?_, ?_⟩
  · intro uri fa fv opts
    have h := CreateMediaStreamSource_initContext_without_streams ext hA hV
      (CreateMediaStreamSource.openInput ext (uri.getD "")
        (CreateMediaStreamSource.parseOptions ext
          (CreateMediaStreamSource.allocFormatContext ext
            (if uri = none then E_INVALIDARG else S_OK, FFmpegInteropMSS.init)) opts)) fa fv
      (CreateMediaStreamSource_Uri_untouched (fun s => s.mediaStreamSource)
        (fun _ _ _ _ _ _ => rfl) ext _ uri opts)
      (CreateMediaStreamSource_Uri_untouched (fun s => s.audioStreamDescriptor)
        (fun _ _ _ _ _ _ => rfl) ext _ uri opts)
      (CreateMediaStreamSource_Uri_untouched (fun s => s.videoStreamDescriptor)
        (fun _ _ _ _ _ _ => rfl) ext _ uri opts)
    unfold CreateFFmpegInteropMSSFromUri CreateMediaStreamSource_Uri
    simp only []
    rw [if_pos h.1]
  · intro stream fa fv opts
    have h := CreateMediaStreamSource_initContext_without_streams ext hA hV
      (CreateMediaStreamSource.openInput ext ""
        (CreateMediaStreamSource.parseOptions ext
          (CreateMediaStreamSource.allocFormatContext ext
            (CreateMediaStreamSource.allocIOContext ext
              (CreateMediaStreamSource.allocBuffer ext
                (CreateMediaStreamSource.createStream ext
                  (if stream = none then E_INVALIDARG else S_OK, FFmpegInteropMSS.init)))))
          opts)) fa fv
      (CreateMediaStreamSource_Stream_untouched (fun s => s.mediaStreamSource)
        (fun _ _ _ _ _ _ => rfl) ext _ stream opts)
      (CreateMediaStreamSource_Stream_untouched (fun s => s.audioStreamDescriptor)
        (fun _ _ _ _ _ _ => rfl) ext _ stream opts)
      (CreateMediaStreamSource_Stream_untouched (fun s => s.videoStreamDescriptor)
        (fun _ _ _ _ _ _ => rfl) ext _ stream opts)
    unfold CreateFFmpegInteropMSSFromStream CreateMediaStreamSource_Stream
    simp only []
    rw [if_pos h.1]

/-- An instance of C8: a music file whose only video stream is cover art and
which has no audio stream yields no object. -/
theorem InitFFmpegContext_no_stream_no_pipeline_witness :
    CreateFFmpegInteropMSSFromUri
      { External.sample with
        av_find_best_stream := fun t =>
          match t with
          | AVMediaType.AVMEDIA_TYPE_AUDIO => (AVERROR_STREAM_NOT_FOUND, none)
          | AVMediaType.AVMEDIA_TYPE_VIDEO => (0, some { id := AVCodecID.AV_CODEC_ID_H264 })
        streams := fun _ =>
          { codec := AVCodecContext.blank AVCodecID.AV_CODEC_ID_H264
            disposition := AV_DISPOSITION_ATTACHED_PIC
            avg_frame_rate := { num := 0, den := 0 } } }
      (some "music.mp3") false false none = none :=
  (InitFFmpegContext_no_stream_no_pipeline
    { External.sample with
      av_find_best_stream := fun t =>
        match t with
        | AVMediaType.AVMEDIA_TYPE_AUDIO => (AVERROR_STREAM_NOT_FOUND, none)
        | AVMediaType.AVMEDIA_TYPE_VIDEO => (0, some { id := AVCodecID.AV_CODEC_ID_H264 })
      streams := fun _ =>
        { codec := AVCodecContext.blank AVCodecID.AV_CODEC_ID_H264
          disposition := AV_DISPOSITION_ATTACHED_PIC
          avg_frame_rate := { num := 0, den := 0 } } }
    (Or.inl rfl) (Or.inr (Or.inr rfl))).2.1 (some "music.mp3") false false none


/-! ## A failure of the audio stream -/

/-- The result code of `CreateAudioStreamDescriptor` and the provider it leaves
depend on the object only through the provider it had. -/
theorem CreateAudioStreamDescriptor_congr (ext : External) (s t : FFmpegInteropMSS)
    (ctx : AVCodecContext) (forceDecode : Bool)
    (h : s.audioSampleProvider = t.audioSampleProvider) :
    (CreateAudioStreamDescriptor ext s ctx forceDecode).1 =
      (CreateAudioStreamDescriptor ext t ctx forceDecode).1 ∧
    (CreateAudioStreamDescriptor ext s ctx forceDecode).2.audioSampleProvider =
      (CreateAudioStreamDescriptor ext t ctx forceDecode).2.audioSampleProvider := by
  have hsw : (CreateAudioStreamDescriptor.switch ext s ctx).1 =
        (CreateAudioStreamDescriptor.switch ext t ctx).1 ∧
      (CreateAudioStreamDescriptor.switch ext s ctx).2.2 =
        (CreateAudioStreamDescriptor.switch ext t ctx).2.2 ∧
      (CreateAudioStreamDescriptor.switch ext s ctx).2.1.audioSampleProvider =
        (CreateAudioStreamDescriptor.switch ext t ctx).2.1.audioSampleProvider := by
    unfold CreateAudioStreamDescriptor.switch CreateAudioStreamDescriptor.passthrough
    split <;> (try split) <;> simp [h]
  have h1 : (if forceDecode = false then CreateAudioStreamDescriptor.switch ext s ctx
        else (none, s, false)).1 =
      (if forceDecode = false then CreateAudioStreamDescriptor.switch ext t ctx
        else (none, t, false)).1 ∧
      (if forceDecode = false then CreateAudioStreamDescriptor.switch ext s ctx
        else (none, s, false)).2.2 =
      (if forceDecode = false then CreateAudioStreamDescriptor.switch ext t ctx
        else (none, t, false)).2.2 ∧
      (if forceDecode = false then CreateAudioStreamDescriptor.switch ext s ctx
        else (none, s, false)).2.1.audioSampleProvider =
      (if forceDecode = false then CreateAudioStreamDescriptor.switch ext t ctx
        else (none, t, false)).2.1.audioSampleProvider := by
    split
    · exact hsw
    · exact ⟨rfl, rfl, h⟩
  unfold CreateAudioStreamDescriptor
  simp only []
  generalize (if forceDecode = false then CreateAudioStreamDescriptor.switch ext s ctx
      else (none, s, false)) = sw at h1
  generalize (if forceDecode = false then CreateAudioStreamDescriptor.switch ext t ctx
      else (none, t, false)) = tw at h1
  obtain ⟨swp, sws, swb⟩ := sw
  obtain ⟨twp, tws, twb⟩ := tw
  obtain ⟨hp, hb, hs⟩ := h1
  simp only at hp hb hs
  subst hp hb
  cases swb
  · simp only [Bool.false_eq_true, if_false]
    have ht : tws.audioSampleProvider = sws.audioSampleProvider := hs.symm
    rw [ht]
    cases swp <;> cases hq : sws.audioSampleProvider <;>
      cases hal : ext.alloc AllocSite.AudioStreamDescriptor <;>
      simp [External.refNew, ht, hq, hal]
  · simp only [if_true, CreateAudioStreamDescriptor.defaultProvider]
    cases h1 : ext.alloc AllocSite.AudioEncodingProperties <;>
      cases h2 : ext.alloc AllocSite.AudioSampleProvider <;>
      cases h3 : ext.alloc AllocSite.AudioStreamDescriptor <;>
      simp [External.refNew, h1, h2, h3]


/-- The audio block ends in failure when the codec cannot be opened, the
descriptor cannot be created or `AllocateResources` fails. -/
theorem InitFFmpegContext_audio_fails (ext : External) (s s1 : FFmpegInteropMSS)
    (forceAudioDecode : Bool) (index : Int) (codec : AVCodec)
    (hprov : s1.audioSampleProvider = s.audioSampleProvider)
    (hfound : ext.av_find_best_stream AVMediaType.AVMEDIA_TYPE_AUDIO = (index, some codec))
    (hindex : index ≠ AVERROR_STREAM_NOT_FOUND)
    (hfail : ext.avcodec_open2 (ext.streams index).codec codec < 0 ∨
      FAILED (CreateAudioStreamDescriptor ext s (ext.streams index).codec forceAudioDecode).1 =
        true ∨
      FAILED (ext.AllocateResources (CreateAudioStreamDescriptor ext s (ext.streams index).codec
        forceAudioDecode).2.audioSampleProvider) = true) :
    FAILED (InitFFmpegContext.audio ext s1 forceAudioDecode).1 = true := by
  unfold InitFFmpegContext.audio
  simp only [hfound, if_pos hindex]
  by_cases hopen : ext.avcodec_open2 (ext.streams index).codec codec < 0
  · rw [if_pos hopen]
    show FAILED E_FAIL = true
    decide
  · rw [if_neg hopen]
    obtain ⟨hhr, hp⟩ := CreateAudioStreamDescriptor_congr ext
      { s1 with audioStreamIndex := index, avAudioCodecCtx := some (ext.streams index).codec } s
      (ext.streams index).codec forceAudioDecode hprov
    by_cases hdesc : SUCCEEDED (CreateAudioStreamDescriptor ext
        { s1 with audioStreamIndex := index, avAudioCodecCtx := some (ext.streams index).codec }
        (ext.streams index).codec forceAudioDecode).1 = true
    · rw [if_pos hdesc]
      have halloc : FAILED (ext.AllocateResources (CreateAudioStreamDescriptor ext
          { s1 with audioStreamIndex := index, avAudioCodecCtx := some (ext.streams index).codec }
          (ext.streams index).codec forceAudioDecode).2.audioSampleProvider) = true := by
        rcases hfail with h | h | h
        · exact absurd h hopen
        · rw [← hhr] at h
          simp only [SUCCEEDED, FAILED, decide_eq_true_eq] at hdesc h
          exact absurd h (not_lt.mpr hdesc)
        · rw [hp]
          exact h
      have hns : ¬ SUCCEEDED (ext.AllocateResources (CreateAudioStreamDescriptor ext
          { s1 with audioStreamIndex := index, avAudioCodecCtx := some (ext.streams index).codec }
          (ext.streams index).codec forceAudioDecode).2.audioSampleProvider) = true := by
        simp only [SUCCEEDED, FAILED, decide_eq_true_eq] at halloc ⊢
        exact not_le.mpr halloc
      rw [if_neg hns]
      exact halloc
    · rw [if_neg hdesc]
      exact FAILED_of_not_SUCCEEDED _ hdesc

/-- When the audio block ends in failure, `InitFFmpegContext` returns a failure
and nothing outside the audio members and the reader has been assigned. -/
theorem InitFFmpegContext_of_audio_failed {α : Type} (f : FFmpegInteropMSS → α)
    (hf : UntouchedByAudio f) (ext : External) (s : FFmpegInteropMSS)
    (forceAudioDecode forceVideoDecode : Bool)
    (h : FAILED (InitFFmpegContext.audio ext { s with m_Reader := some FFmpegReader.init }
      forceAudioDecode).1 = true) :
    FAILED (InitFFmpegContext ext s forceAudioDecode forceVideoDecode).1 = true ∧
    f (InitFFmpegContext ext s forceAudioDecode forceVideoDecode).2 = f s := by
  have hA := InitFFmpegContext_audio_untouched f hf ext
    { s with m_Reader := some FFmpegReader.init } forceAudioDecode
  have hR : f { s with m_Reader := some FFmpegReader.init } = f s := hf s _ _ _ _ _
  have hN : f { s with m_Reader := none } = f s := hf s _ _ _ _ _
  unfold InitFFmpegContext
  by_cases hinfo : ext.avformat_find_stream_info < 0
  · simp only [if_pos hinfo]
    exact ⟨by decide, trivial⟩
  · simp only [if_neg hinfo]
    cases hreader : ext.alloc AllocSite.FFmpegReader
    · simp only [External.refNew, hreader, Bool.false_eq_true, if_false, if_true]
      exact ⟨by decide, hN⟩
    · simp only [External.refNew, hreader, if_true, reduceCtorEq, if_false, if_pos h]
      exact ⟨h, hA.trans hR⟩

/-- C4 (as amended): in `InitFFmpegContext` a setup failure of the audio stream
(its codec cannot be opened, its descriptor cannot be created, or
`AllocateResources` fails) is fatal to the construction: `InitFFmpegContext`
returns a failure HRESULT without setting up the video stream, even when a viable
video stream exists; the video stream index, codec context, provider and
descriptor and the media stream source are as on entry. -/
theorem InitFFmpegContext_audio_failure_is_fatal (ext : External) (s : FFmpegInteropMSS)
    (forceAudioDecode forceVideoDecode : Bool) (index : Int) (codec : AVCodec)
    (hfound : ext.av_find_best_stream AVMediaType.AVMEDIA_TYPE_AUDIO = (index, some codec))
    (hindex : index ≠ AVERROR_STREAM_NOT_FOUND)
    (hfail : ext.avcodec_open2 (ext.streams index).codec codec < 0 ∨
      FAILED (CreateAudioStreamDescriptor ext s (ext.streams index).codec forceAudioDecode).1 =
        true ∨
      FAILED (ext.AllocateResources (CreateAudioStreamDescriptor ext s (ext.streams index).codec
        forceAudioDecode).2.audioSampleProvider) = true) :
    FAILED (InitFFmpegContext ext s forceAudioDecode forceVideoDecode).1 = true ∧
    (InitFFmpegContext ext s forceAudioDecode forceVideoDecode).2.videoStreamIndex =
      s.videoStreamIndex ∧
    (InitFFmpegContext ext s forceAudioDecode forceVideoDecode).2.avVideoCodecCtx =
      s.avVideoCodecCtx ∧
    (InitFFmpegContext ext s forceAudioDecode forceVideoDecode).2.videoSampleProvider =
      s.videoSampleProvider ∧
    (InitFFmpegContext ext s forceAudioDecode forceVideoDecode).2.videoStreamDescriptor =
      s.videoStreamDescriptor ∧
    (InitFFmpegContext ext s forceAudioDecode forceVideoDecode).2.mediaStreamSource =
      s.mediaStreamSource := by
  have h := InitFFmpegContext_audio_fails ext s { s with m_Reader := some FFmpegReader.init }
    forceAudioDecode index codec rfl hfound hindex hfail
  exact ⟨(InitFFmpegContext_of_audio_failed (fun s => s.mediaStreamSource)
      (fun _ _ _ _ _ _ => rfl) ext s forceAudioDecode forceVideoDecode h).1,
    (InitFFmpegContext_of_audio_failed (fun s => s.videoStreamIndex)
      (fun _ _ _ _ _ _ => rfl) ext s forceAudioDecode forceVideoDecode h).2,
    (InitFFmpegContext_of_audio_failed (fun s => s.avVideoCodecCtx)
      (fun _ _ _ _ _ _ => rfl) ext s forceAudioDecode forceVideoDecode h).2,
    (InitFFmpegContext_of_audio_failed (fun s => s.videoSampleProvider)
      (fun _ _ _ _ _ _ => rfl) ext s forceAudioDecode forceVideoDecode h).2,
    (InitFFmpegContext_of_audio_failed (fun s => s.videoStreamDescriptor)
      (fun _ _ _ _ _ _ => rfl) ext s forceAudioDecode forceVideoDecode h).2,
    (InitFFmpegContext_of_audio_failed (fun s => s.mediaStreamSource)
      (fun _ _ _ _ _ _ => rfl) ext s forceAudioDecode forceVideoDecode h).2⟩

/-- An instance of the amended C4: on the sample container with an audio provider
whose `AllocateResources` fails, the construction fails although the H.264 video
stream is fine. -/
theorem InitFFmpegContext_audio_failure_is_fatal_witness :
    FAILED (InitFFmpegContext
      { External.sample with
        AllocateResources := fun p =>
          if p = some SampleProvider.MediaSampleProvider then E_OUTOFMEMORY else S_OK }
      FFmpegInteropMSS.init false false).1 = true :=
  (InitFFmpegContext_audio_failure_is_fatal
    { External.sample with
      AllocateResources := fun p =>
        if p = some SampleProvider.MediaSampleProvider then E_OUTOFMEMORY else S_OK }
    FFmpegInteropMSS.init false false 1 { id := AVCodecID.AV_CODEC_ID_MP3 } rfl (by decide)
    (Or.inr (Or.inr (by decide)))).1

/-- C4 as stated fails: the audio codec of the sample container cannot be opened
and its H.264 video stream is viable (without the audio stream the same container
is opened with success as a video-only pipeline), yet `InitFFmpegContext` returns
`E_FAIL`, no video descriptor is set up and the factory returns null. -/
theorem InitFFmpegContext_audio_failure_not_isolated :
    (InitFFmpegContext
      { External.sample with
        avcodec_open2 := fun ctx _ => if ctx.codec_id = AVCodecID.AV_CODEC_ID_MP3 then -1 else 0 }
      FFmpegInteropMSS.init false false).1 = E_FAIL ∧
    (InitFFmpegContext
      { External.sample with
        avcodec_open2 := fun ctx _ => if ctx.codec_id = AVCodecID.AV_CODEC_ID_MP3 then -1 else 0 }
      FFmpegInteropMSS.init false false).2.videoStreamDescriptor = none ∧
    CreateFFmpegInteropMSSFromUri
      { External.sample with
        avcodec_open2 := fun ctx _ => if ctx.codec_id = AVCodecID.AV_CODEC_ID_MP3 then -1 else 0 }
      (some "movie.mp4") false false none = none ∧
    (InitFFmpegContext
      { External.sample with
        avcodec_open2 := fun ctx _ => if ctx.codec_id = AVCodecID.AV_CODEC_ID_MP3 then -1 else 0
        av_find_best_stream := fun t =>
          match t with
          | AVMediaType.AVMEDIA_TYPE_AUDIO => (AVERROR_STREAM_NOT_FOUND, none)
          | AVMediaType.AVMEDIA_TYPE_VIDEO => (0, some { id := AVCodecID.AV_CODEC_ID_H264 }) }
      FFmpegInteropMSS.init false false).1 = S_OK ∧
    ((InitFFmpegContext
      { External.sample with
        avcodec_open2 := fun ctx _ => if ctx.codec_id = AVCodecID.AV_CODEC_ID_MP3 then -1 else 0
        av_find_best_stream := fun t =>
          match t with
          | AVMediaType.AVMEDIA_TYPE_AUDIO => (AVERROR_STREAM_NOT_FOUND, none)
          | AVMediaType.AVMEDIA_TYPE_VIDEO => (0, some { id := AVCodecID.AV_CODEC_ID_H264 }) }
      FFmpegInteropMSS.init false false).2.videoStreamDescriptor).isSome = true := by
  decide


/-! ## Options -/

/-- The loop of `ParseOptions` ends with `E_INVALIDARG` when the option set holds
an entry that `av_dict_set` rejects. -/
theorem ParseOptions_loop_rejects (ext : External) (key val : String)
    (hrej : ∀ d, (ext.av_dict_set d key val).1 < 0) (opts : List (String × String))
    (hmem : (key, val) ∈ opts) (d : AVDictionary) :
    (ParseOptions.loop ext d opts).1 = E_INVALIDARG := by
  induction opts generalizing d with
  | nil => cases hmem
  | cons head rest ih =>
    obtain ⟨k, v⟩ := head
    unfold ParseOptions.loop
    simp only []
    by_cases hneg : (ext.av_dict_set d k v).1 < 0
    · rw [if_pos hneg]
    · rw [if_neg hneg]
      rcases List.mem_cons.mp hmem with h | h
      · cases h
        exact absurd (hrej d) hneg
      · exact ih h _

/-- After the block that parses a set with a rejected option, `hr` is a failure. -/
theorem CreateMediaStreamSource_parseOptions_rejects (ext : External) (key val : String)
    (hrej : ∀ d, (ext.av_dict_set d key val).1 < 0) (opts : PropertySet)
    (hmem : (key, val) ∈ opts) (r : HRESULT × FFmpegInteropMSS) :
    FAILED (CreateMediaStreamSource.parseOptions ext r (some opts)).1 = true := by
  unfold CreateMediaStreamSource.parseOptions
  by_cases h : SUCCEEDED r.1 = true
  · rw [if_pos h]
    unfold ParseOptions
    simp only [ParseOptions_loop_rejects ext key val hrej opts hmem]
    decide
  · rw [if_neg h]
    exact FAILED_of_not_SUCCEEDED r.1 h

/-- The blocks after option parsing do nothing once `hr` is a failure. -/
theorem CreateMediaStreamSource_after_failure (ext : External) (r : HRESULT × FFmpegInteropMSS)
    (h : FAILED r.1 = true) (url : String) (forceAudioDecode forceVideoDecode : Bool) :
    CreateMediaStreamSource.initContext ext (CreateMediaStreamSource.openInput ext url r)
      forceAudioDecode forceVideoDecode = r := by
  have hns : ¬ SUCCEEDED r.1 = true := by
    simp only [SUCCEEDED, FAILED, decide_eq_true_eq] at h ⊢
    exact not_le.mpr h
  unfold CreateMediaStreamSource.openInput
  rw [if_neg hns]
  unfold CreateMediaStreamSource.initContext
  rw [if_neg hns]

/-- C5 (as amended): for every option set passed to `CreateMediaStreamSource`
(URI or stream overload) that holds an option `av_dict_set` rejects in
`ParseOptions`, `CreateMediaStreamSource` returns a failure HRESULT and the
factory returns null. -/
theorem CreateMediaStreamSource_rejected_option_fails (ext : External) (key val : String)
    (hrej : ∀ d, (ext.av_dict_set d key val).1 < 0) (opts : PropertySet)
    (hmem : (key, val) ∈ opts) :
    (∀ (s : FFmpegInteropMSS) (uri : Option String) (forceAudioDecode forceVideoDecode : Bool),
      FAILED (CreateMediaStreamSource_Uri ext s uri forceAudioDecode forceVideoDecode
        (some opts)).1 = true) ∧
    (∀ (s : FFmpegInteropMSS) (stream : Option IRandomAccessStream)
      (forceAudioDecode forceVideoDecode : Bool),
      FAILED (CreateMediaStreamSource_Stream ext s stream forceAudioDecode forceVideoDecode
        (some opts)).1 = true) ∧
    (∀ (uri : Option String) (forceAudioDecode forceVideoDecode : Bool),
      CreateFFmpegInteropMSSFromUri ext uri forceAudioDecode forceVideoDecode (some opts) =
        none) ∧
    (∀ (stream : Option IRandomAccessStream) (forceAudioDecode forceVideoDecode : Bool),
      CreateFFmpegInteropMSSFromStream ext stream forceAudioDecode forceVideoDecode (some opts) =
        none) := by
  have hU : ∀ (s : FFmpegInteropMSS) (uri : Option String) (fa fv : Bool),
      FAILED (CreateMediaStreamSource_Uri ext s uri fa fv (some opts)).1 = true := by
    intro s uri fa fv
    unfold CreateMediaStreamSource_Uri
    simp only []
    rw [CreateMediaStreamSource_after_failure ext _
      (CreateMediaStreamSource_parseOptions_rejects ext key val hrej opts hmem _)]
    exact CreateMediaStreamSource_parseOptions_rejects ext key val hrej opts hmem _
  have hS : ∀ (s : FFmpegInteropMSS) (stream : Option IRandomAccessStream) (fa fv : Bool),
      FAILED (CreateMediaStreamSource_Stream ext s stream fa fv (some opts)).1 = true := by
    intro s stream fa fv
    unfold CreateMediaStreamSource_Stream
    simp only []
    rw [CreateMediaStreamSource_after_failure ext _
      (CreateMediaStreamSource_parseOptions_rejects ext key val hrej opts hmem _)]
    exact CreateMediaStreamSource_parseOptions_rejects ext key val hrej opts hmem _
  refine ⟨hU, hS, ?_, ?_⟩
  · intro uri fa fv
    unfold CreateFFmpegInteropMSSFromUri
    simp only []
    rw [if_pos (hU _ uri fa fv)]
  · intro stream fa fv
    unfold CreateFFmpegInteropMSSFromStream
    simp only []
    rw [if_pos (hS _ stream fa fv)]

/-- An instance of the amended C5: a library that rejects every option makes the
construction with one option fail. -/
theorem CreateMediaStreamSource_rejected_option_fails_witness :
    CreateFFmpegInteropMSSFromUri { External.sample with av_dict_set := fun d _ _ => (-1, d) }
      (some "movie.mp4") false false (some [("timeout", "abc")]) = none :=
  (CreateMediaStreamSource_rejected_option_fails
    { External.sample with av_dict_set := fun d _ _ => (-1, d) } "timeout" "abc"
    (fun _ => show (-1 : Int) < 0 by decide) [("timeout", "abc")]
    (List.mem_singleton.mpr rfl)).2.2.1
    (some "movie.mp4") false false

/-- C5 as stated fails: `av_dict_set` accepts the option, the container-opening
call succeeds and leaves the option unconsumed in `avDict`, and
`CreateMediaStreamSource` returns `S_OK`: both factories return an object. -/
theorem CreateMediaStreamSource_unconsumed_option_succeeds :
    ({ External.sample with avformat_open_input := fun _ d => (0, d) } : External).avformat_open_input
      "movie.mp4" [("no_such_option", "1")] ≠ (0, []) ∧
    (CreateMediaStreamSource_Uri { External.sample with avformat_open_input := fun _ d => (0, d) }
      FFmpegInteropMSS.init (some "movie.mp4") false false
      (some [("no_such_option", "1")])).1 = S_OK ∧
    (CreateFFmpegInteropMSSFromUri { External.sample with avformat_open_input := fun _ d => (0, d) }
      (some "movie.mp4") false false (some [("no_such_option", "1")])).isSome = true ∧
    (CreateFFmpegInteropMSSFromStream
      { External.sample with avformat_open_input := fun _ d => (0, d) }
      (some { id := 0 }) false false (some [("no_such_option", "1")])).isSome = true := by
  decide

/-! ## The audio descriptor -/

/-- With forced decode `CreateAudioStreamDescriptor` skips the switch, in which
alone `useDefaultProvider` is set, so no properties are made: it returns
`E_OUTOFMEMORY` and assigns nothing, whatever the codec and the libraries. -/
theorem CreateAudioStreamDescriptor_forced_decode (ext : External) (s : FFmpegInteropMSS)
    (ctx : AVCodecContext) :
    CreateAudioStreamDescriptor ext s ctx true = (E_OUTOFMEMORY, s) := by
  unfold CreateAudioStreamDescriptor
  simp

/-- Without forced decode and allocation failures aside, the codecs AAC, MP3,
WMAV1, WMAV2 and WMAPRO get the compressed-passthrough provider and a descriptor. -/
theorem CreateAudioStreamDescriptor_passthrough (ext : External) (s : FFmpegInteropMSS)
    (ctx : AVCodecContext) (halloc : ∀ site, ext.alloc site = true)
    (hcodec : ctx.codec_id = AVCodecID.AV_CODEC_ID_AAC ∨
      ctx.codec_id = AVCodecID.AV_CODEC_ID_MP3 ∨ ctx.codec_id = AVCodecID.AV_CODEC_ID_WMAV1 ∨
      ctx.codec_id = AVCodecID.AV_CODEC_ID_WMAV2 ∨ ctx.codec_id = AVCodecID.AV_CODEC_ID_WMAPRO) :
    (CreateAudioStreamDescriptor ext s ctx false).1 = S_OK ∧
    (CreateAudioStreamDescriptor ext s ctx false).2.audioSampleProvider =
      some SampleProvider.MediaSampleProvider ∧
    (CreateAudioStreamDescriptor ext s ctx false).2.audioStreamDescriptor ≠ none := by
  unfold CreateAudioStreamDescriptor CreateAudioStreamDescriptor.switch
    CreateAudioStreamDescriptor.passthrough
  rcases hcodec with h | h | h | h | h <;>
    simp only [h, External.refNew, halloc, if_true] <;> split_ifs <;> simp_all

/-- Without forced decode and allocation failures aside, every other codec gets
the uncompressed-decode provider and a PCM descriptor whose bits per sample are
those of the codec context (as an unsigned 32-bit value), 16 when they are 0. -/
theorem CreateAudioStreamDescriptor_uncompressed (ext : External) (s : FFmpegInteropMSS)
    (ctx : AVCodecContext) (id : Nat) (halloc : ∀ site, ext.alloc site = true)
    (hcodec : ctx.codec_id = AVCodecID.AV_CODEC_ID_H264 ∨ ctx.codec_id = AVCodecID.other id) :
    (CreateAudioStreamDescriptor ext s ctx false).1 = S_OK ∧
    (CreateAudioStreamDescriptor ext s ctx false).2.audioSampleProvider =
      some SampleProvider.UncompressedAudioSampleProvider ∧
    (CreateAudioStreamDescriptor ext s ctx false).2.audioStreamDescriptor =
      some (AudioStreamDescriptor.mk
        (AudioEncodingProperties.CreatePcm ctx.sample_rate ctx.channels
          ((if ctx.bits_per_coded_sample ≠ 0 then ctx.bits_per_coded_sample else 16) %
            2 ^ 32).toNat)) := by
  unfold CreateAudioStreamDescriptor CreateAudioStreamDescriptor.switch
    CreateAudioStreamDescriptor.defaultProvider
  rcases hcodec with h | h <;> simp [h, External.refNew, halloc]

/-- The video sibling honours the flag: with forced decode and allocation
failures aside, `CreateVideoStreamDescriptor` returns `S_OK` with the
uncompressed-decode provider and a descriptor, whatever the codec. -/
theorem CreateVideoStreamDescriptor_forced_decode (ext : External) (s : FFmpegInteropMSS)
    (ctx : AVCodecContext) (halloc : ∀ site, ext.alloc site = true) :
    (CreateVideoStreamDescriptor ext s ctx true).1 = S_OK ∧
    (CreateVideoStreamDescriptor ext s ctx true).2.videoSampleProvider =
      some SampleProvider.UncompressedVideoSampleProvider ∧
    (CreateVideoStreamDescriptor ext s ctx true).2.videoStreamDescriptor ≠ none := by
  unfold CreateVideoStreamDescriptor CreateVideoStreamDescriptor.provider
  simp only [External.refNew, halloc, if_true, Bool.true_eq_false, and_false, if_false,
    reduceCtorEq]
  split_ifs <;> simp

/-- C11 fails on the code when forceDecode is true.  On the sample container,
where every allocation succeeds, `CreateAudioStreamDescriptor` with forced decode
returns `E_OUTOFMEMORY` and leaves provider and descriptor null, for the MP3
stream as for a codec outside the switch, where the claim promises `S_OK` with the
uncompressed-decode provider and a PCM descriptor; the same input without forced
decode returns `S_OK`.  A construction that asks for forced audio decode
therefore yields no object, while the same construction without it does. -/
theorem CreateAudioStreamDescriptor_forced_decode_fails :
    External.sample.alloc AllocSite.AudioEncodingProperties = true ∧
    External.sample.alloc AllocSite.AudioSampleProvider = true ∧
    External.sample.alloc AllocSite.AudioStreamDescriptor = true ∧
    (CreateAudioStreamDescriptor External.sample FFmpegInteropMSS.init
      (AVCodecContext.blank AVCodecID.AV_CODEC_ID_MP3) true).1 = E_OUTOFMEMORY ∧
    (CreateAudioStreamDescriptor External.sample FFmpegInteropMSS.init
      (AVCodecContext.blank AVCodecID.AV_CODEC_ID_MP3) true).2.audioSampleProvider = none ∧
    (CreateAudioStreamDescriptor External.sample FFmpegInteropMSS.init
      (AVCodecContext.blank AVCodecID.AV_CODEC_ID_MP3) true).2.audioStreamDescriptor = none ∧
    (CreateAudioStreamDescriptor External.sample FFmpegInteropMSS.init
      (AVCodecContext.blank (AVCodecID.other 0)) true).1 = E_OUTOFMEMORY ∧
    (CreateAudioStreamDescriptor External.sample FFmpegInteropMSS.init
      (AVCodecContext.blank (AVCodecID.other 0)) true).2.audioSampleProvider = none ∧
    (CreateAudioStreamDescriptor External.sample FFmpegInteropMSS.init
      (AVCodecContext.blank AVCodecID.AV_CODEC_ID_MP3) false).1 = S_OK ∧
    (CreateAudioStreamDescriptor External.sample FFmpegInteropMSS.init
      (AVCodecContext.blank (AVCodecID.other 0)) false).2.audioSampleProvider =
      some SampleProvider.UncompressedAudioSampleProvider ∧
    CreateFFmpegInteropMSSFromUri External.sample (some "movie.mp4") true false none = none ∧
    (CreateFFmpegInteropMSSFromUri External.sample (some "movie.mp4") false false none).isSome =
      true :=
  ⟨rfl, rfl, rfl, by decide, by decide, by decide, by decide, by decide, by decide, by decide,
    by decide, by decide⟩

end FFmpegInterop
